import Mathlib

/-!
Shallow embedding of the tinfo NES emulator core (CPU / Bus / Cartridge
triangle) and verification of its specification claims.

Machine integers are embedded as `Nat` with explicit bounds.  Rust
arithmetic on `u8`/`u16` is embedded checked, the way a debug build
executes it: an overflowing `+`/`-` is a program abort, modelled by the
`crash` outcome below.  Fallible Rust functions returning
`Result<T, E>` become `RustRes E T`, whose third constructor `crash`
models a Rust panic (`todo!`, `unimplemented!`, arithmetic overflow,
out-of-bounds `Vec` indexing); a panic aborts the call, so no state is
carried by that constructor.
-/

/-- Outcome of a fallible Rust computation: `ok` and `err` are the two
`Result` constructors, `crash` models a panic/abort with its message. -/
inductive RustRes (ε : Type) (α : Type) where
  | ok (a : α)
  | err (e : ε)
  | crash (msg : String)
deriving DecidableEq

/-- Errors of the cartridge layer (`CartridgeError` in cartridge.rs). -/
inductive CartridgeError where
  | cannotRead (msg : String)
  | cannotWrite (msg : String)
deriving DecidableEq

/-- Errors of the bus layer (`BusError` in bus.rs). -/
inductive BusError where
  | cannotRead (msg : String)
  | cannotWrite (msg : String)
  | cartridgeError (e : CartridgeError)
deriving DecidableEq

/-- Errors of a single instruction cycle (`CycleError` in cpu.rs). -/
inductive CycleError where
  | instructionCycleOutOfBounds
  | busError (e : BusError)
deriving DecidableEq

/-- Errors of the CPU layer (`CpuError` in cpu.rs). -/
inductive CpuError where
  | busError (e : BusError)
  | instructionError (e : CycleError)
deriving DecidableEq

/-- Checked 16-bit addition, as a Rust debug build executes `a + b` on
`u16`: the mathematical sum when it fits, an abort on overflow. -/
def u16_add {ε : Type} (a b : Nat) : RustRes ε Nat :=
  if a + b ≤ 0xFFFF then .ok (a + b) else .crash "attempt to add with overflow"

/-- Checked 8-bit addition (`a + b` on `u8`). -/
def u8_add {ε : Type} (a b : Nat) : RustRes ε Nat :=
  if a + b ≤ 0xFF then .ok (a + b) else .crash "attempt to add with overflow"

/-- Checked 8-bit subtraction (`a - b` on `u8`). -/
def u8_sub {ε : Type} (a b : Nat) : RustRes ε Nat :=
  if b ≤ a then .ok (a - b) else .crash "attempt to subtract with overflow"

/-- `BYTES_ON_A_KIBIBYTE` from lib.rs. -/
def BYTES_ON_A_KIBIBYTE : Nat := 1024

/-- `build_address` from lib.rs: build a 16-bit bus address from two
bytes as low ORed with high shifted left by eight. -/
def build_address (lower_byte upper_byte : Nat) : Nat :=
  lower_byte ||| (upper_byte <<< 8)

/-- `U16Ex::get_lower_byte` from lib.rs: the least significant byte. -/
def get_lower_byte (n : Nat) : Nat :=
  n &&& 0x00FF

/-- `U16Ex::get_upper_byte` from lib.rs: the most significant byte. -/
def get_upper_byte (n : Nat) : Nat :=
  (n &&& 0xFF00) >>> 8

/-- The `Rom` trait of rom.rs reduced to its one method: `read_prg_data`
is a total function from index to byte. -/
def Rom : Type := Nat → Nat

/-- The `Nrom` cartridge of cartridge/nrom.rs: a ROM plus the 32-vs-16
KiB program ROM capacity flag. -/
structure Nrom where
  rom : Rom
  has_32_kibibytes_prg_rom_capacity : Bool

/-- `Nrom::read` from cartridge/nrom.rs: fail below 0x8000, otherwise
index the ROM relative to 0x8000, modulo 16 KiB when the cartridge only
has 16 KiB capacity. -/
def Nrom.read (n : Nrom) (address : Nat) : Except CartridgeError Nat :=
  if address < 0x8000 then
    .error (.cannotRead "On a NROM memory mapper read operations below 0x800 are undefined behavior")
  else
    let address := address - 0x8000
    if n.has_32_kibibytes_prg_rom_capacity then
      .ok (n.rom address)
    else
      .ok (n.rom (address % (16 * BYTES_ON_A_KIBIBYTE)))

/-- `Nrom::write` from cartridge/nrom.rs: always fails; the body never
touches `self`, which the returned (unchanged) state makes explicit. -/
def Nrom.write (n : Nrom) (_address _value : Nat) :
    Except CartridgeError Unit × Nrom :=
  (.error (.cannotWrite "Write operations cannot be done with a NROM memory mapper"), n)

/-- The `Cartridge` trait of cartridge.rs, as the record of its two
methods.  Neither cartridge in the repository mutates itself on `write`
(`Nrom::write` always fails without touching `self`, the test mock
ignores the write), so `write` needs no successor state here. -/
structure Cartridge where
  read : Nat → Except CartridgeError Nat
  write : Nat → Nat → Except CartridgeError Unit

/-- The `Bus` of bus.rs: the 2 KiB CPU RAM (a total function on
addresses 0x0000-0x07FF; `Bus::new` fills it with arbitrary bytes, so
theorems quantify over the initial contents) and the cartridge. -/
structure Bus where
  cpu_ram : Nat → Nat
  cartridge : Cartridge

/-- `Bus::read` from bus.rs.  The address is a `u16`, so the match on
the five regions is exhaustive; the three middle regions are `todo!`
panics in the source, embedded as `crash`. -/
def Bus.read (b : Bus) (address : Nat) : RustRes BusError Nat :=
  if address ≤ 0x1FFF then
    .ok (b.cpu_ram (address &&& 0x07FF))
  else if address ≤ 0x3FFF then
    .crash "PPU registers have not been implemented yet"
  else if address ≤ 0x4017 then
    .crash "APU and IO registers have not been implemented yet"
  else if address ≤ 0x401F then
    .crash "APU and IO special registers when the CPU is in Test Mode have not been implemented yet"
  else
    match b.cartridge.read address with
    | .ok v => .ok v
    | .error e => .err (.cartridgeError e)

/-- `Bus::write` from bus.rs, returning the successor bus state. -/
def Bus.write (b : Bus) (address value : Nat) : RustRes BusError Bus :=
  if address ≤ 0x1FFF then
    .ok { b with cpu_ram := fun a => if a = (address &&& 0x07FF) then value else b.cpu_ram a }
  else if address ≤ 0x3FFF then
    .crash "PPU registers have not been implemented yet"
  else if address ≤ 0x4017 then
    .crash "APU and IO registers have not been implemented yet"
  else if address ≤ 0x401F then
    .crash "APU and IO special registers when the CPU is in Test Mode have not been implemented yet"
  else
    match b.cartridge.write address value with
    | .ok _ => .ok b
    | .error e => .err (.cartridgeError e)

/-- Bit masks of `CpuStatusFlags` from cpu.rs (a `bitflags` u8 set). -/
def CpuStatusFlags.Carry : Nat := 1 <<< 0

/-- The Zero status flag bit. -/
def CpuStatusFlags.Zero : Nat := 1 <<< 1

/-- The InterruptsDisabled status flag bit. -/
def CpuStatusFlags.InterruptsDisabled : Nat := 1 <<< 2

/-- The Decimal status flag bit. -/
def CpuStatusFlags.Decimal : Nat := 1 <<< 3

/-- The B status flag bit. -/
def CpuStatusFlags.B : Nat := 1 <<< 4

/-- The Stub status flag bit. -/
def CpuStatusFlags.Stub : Nat := 1 <<< 5

/-- The Overflow status flag bit. -/
def CpuStatusFlags.Overflow : Nat := 1 <<< 6

/-- The Negative status flag bit. -/
def CpuStatusFlags.Negative : Nat := 1 <<< 7

/-- `bitflags` `contains` for a single-bit flag: the flag bits survive
the intersection. -/
def flagContains (status flag : Nat) : Bool :=
  status &&& flag = flag

/-- `bitflags` insertion, the `|=` operator on the status register. -/
def flagInsert (status flag : Nat) : Nat :=
  status ||| flag

/-- `bitflags` removal, the `-=` operator on the status register:
keep every bit of `status` outside `flag` (u8 flag sets). -/
def flagRemove (status flag : Nat) : Nat :=
  status &&& (0xFF ^^^ flag)

/-- `STACK_ADDRESS` from cpu.rs. -/
def STACK_ADDRESS : Nat := 0x0100

/-- The `Instruction` enum from cpu.rs. -/
inductive Instruction where
  | stub
  | jumpAbsolute
  | loadXRegisterImmediate
  | storeXRegisterZeroPage
  | jumpToSubroutineAbsolute
  | noOperationImplied
  | setCarryFlagImplied
  | clearCarryFlagImplied
  | branchIfCarrySetRelative
  | branchIfCarryClearRelative
  | branchIfEqual
  | branchIfNotEqual
  | branchIfOverflowSet
  | branchIfOverflowClear
  | branchIfPositive
  | branchIfMinus
deriving DecidableEq

/-- `InstructionData` from cpu.rs.  The `assembly` text field is pure
presentation (a hex rendering of the other fields) and is not modelled;
every semantic field is kept. -/
structure InstructionData where
  idle_cycles : Nat
  arg_1 : Option Nat
  arg_2 : Option Nat
deriving DecidableEq

/-- The `Cpu` state from cpu.rs. -/
structure Cpu where
  accumulator : Nat
  register_x : Nat
  register_y : Nat
  status : Nat
  stack_pointer : Nat
  program_counter : Nat
  current_instruction : Instruction
  current_instruction_cycle : Nat
  bus : Bus
  cache : List Nat
  cpu_cycles : Nat

/-- `CpuSnapshot` from cpu.rs (minus the derived assembly text carried
inside `instruction_data`). -/
structure CpuSnapshot where
  accumulator : Nat
  register_x : Nat
  register_y : Nat
  status : Nat
  stack_pointer : Nat
  program_counter : Nat
  opcode : Nat
  instruction_data : InstructionData
  cpy_cycles : Nat

/-- `Cpu::read_program_counter` from cpu.rs. -/
def Cpu.read_program_counter (cpu : Cpu) : RustRes BusError Nat :=
  cpu.bus.read cpu.program_counter

/-- The byte reinterpreted as a signed two's-complement `i8`
(the `value as i8` cast in `Cpu::set_signedness`). -/
def i8_of_u8 (value : Nat) : Int :=
  if value < 128 then (value : Int) else (value : Int) - 256

/-- `Ord::cmp` on `i8` values. -/
def i8_cmp (a b : Int) : Ordering :=
  if a < b then .lt else if a = b then .eq else .gt

/-- `Cpu::set_signedness` from cpu.rs, as the status-register transform:
match on the comparison of the signed byte with zero and set or clear
the Zero and Negative flags. -/
def set_signedness (status value : Nat) : Nat :=
  match i8_cmp (i8_of_u8 value) 0 with
  | .gt => flagRemove (flagRemove status CpuStatusFlags.Negative) CpuStatusFlags.Zero
  | .eq => flagRemove (flagInsert status CpuStatusFlags.Zero) CpuStatusFlags.Negative
  | .lt => flagRemove (flagInsert status CpuStatusFlags.Negative) CpuStatusFlags.Zero

/-- `Cpu::set_signedness` lifted to the CPU state. -/
def Cpu.set_signedness_cpu (cpu : Cpu) (value : Nat) : Cpu :=
  { cpu with status := set_signedness cpu.status value }

/-- `Cpu::stack_push` from cpu.rs: write the value at the stack base
plus the stack-pointer offset, then decrement the offset.  The
decrement is the unchecked `u8` subtraction of the source, which aborts
on overflow (stack pointer zero). -/
def Cpu.stack_push (cpu : Cpu) (value : Nat) : RustRes BusError Cpu :=
  match cpu.bus.write (STACK_ADDRESS + cpu.stack_pointer) value with
  | .ok bus1 =>
      match u8_sub (ε := BusError) cpu.stack_pointer 1 with
      | .ok sp1 => .ok { cpu with bus := bus1, stack_pointer := sp1 }
      | .err e => .err e
      | .crash m => .crash m
  | .err e => .err e
  | .crash m => .crash m

/-- The `From<BusError>` conversion applied by the `?` operator inside
cycle handlers. -/
def busToCycle {α : Type} : RustRes BusError α → RustRes CycleError α
  | .ok a => .ok a
  | .err e => .err (.busError e)
  | .crash m => .crash m

/-- The `From<BusError>` conversion applied by the `?` operator inside
`Cpu::cycle`. -/
def busToCpu {α : Type} : RustRes BusError α → RustRes CpuError α
  | .ok a => .ok a
  | .err e => .err (.busError e)
  | .crash m => .crash m

/-- The `From<CycleError>` conversion applied by the `?` operator inside
`Cpu::cycle`. -/
def cycleToCpu {α : Type} : RustRes CycleError α → RustRes CpuError α
  | .ok a => .ok a
  | .err e => .err (.instructionError e)
  | .crash m => .crash m

/-- A `let _ = expr;` over a fallible bus access: the value and any
`Err` are discarded, but a panic inside the expression still aborts. -/
def discardRead {ε : Type} (r : RustRes BusError Nat) : RustRes ε Unit :=
  match r with
  | .crash m => .crash m
  | _ => .ok ()

/-- The flags for which `Cpu::branch_instruction` has an assembly
prefix; any other flag hits the `unimplemented!` arm of its match. -/
def branchFlagKnown (flag : Nat) : Bool :=
  flag = CpuStatusFlags.Carry || flag = CpuStatusFlags.Zero ||
  flag = CpuStatusFlags.Overflow || flag = CpuStatusFlags.Negative

/-- `Cpu::branch_instruction` from cpu/branching.rs: compute the branch
target from the zero-extended offset byte, then the idle-cycle count:
one, plus one when the branch is taken, plus one more when the target
high byte differs from the high byte of the current (opcode) program
counter. -/
def Cpu.branch_instruction (cpu : Cpu) (status_flag : Nat) (invert : Bool) :
    RustRes BusError InstructionData :=
  match u16_add cpu.program_counter 1 with
  | .ok addr1 =>
    match cpu.bus.read addr1 with
    | .ok arg_1 =>
      match u16_add cpu.program_counter 2 with
      | .ok addr2 =>
        match u16_add addr2 arg_1 with
        | .ok new_program_counter =>
            let contains_status_flag := flagContains cpu.status status_flag
            let taken := (contains_status_flag && !invert) || (!contains_status_flag && invert)
            let crossed := get_upper_byte cpu.program_counter ≠ get_upper_byte new_program_counter
            let idle_cycles := 1 + (if taken then 1 + (if crossed then 1 else 0) else 0)
            if branchFlagKnown status_flag then
              .ok { idle_cycles := idle_cycles, arg_1 := some arg_1, arg_2 := none }
            else
              .crash "not implemented"
        | .err e => .err e
        | .crash m => .crash m
      | .err e => .err e
      | .crash m => .crash m
    | .err e => .err e
    | .crash m => .crash m
  | .err e => .err e
  | .crash m => .crash m

/-- `Cpu::branch_cycles` from cpu/branching.rs: cycle 2 fetches the
offset and decides the branch; cycle 3 redirects, leaving a broken
program counter (correct low byte, stale high byte) when the page
changed; cycle 4 patches the high byte. -/
def Cpu.branch_cycles (cpu : Cpu) (status_flag : Nat) (invert : Bool) :
    RustRes CycleError (Bool × Cpu) :=
  match cpu.current_instruction_cycle with
  | 2 =>
    match busToCycle cpu.read_program_counter with
    | .ok offset =>
      match u16_add cpu.program_counter 1 with
      | .ok pc1 =>
        let cpu := { cpu with program_counter := pc1 }
        let contains_status_flag := flagContains cpu.status status_flag
        if !((contains_status_flag && !invert) || (!contains_status_flag && invert)) then
          .ok (true, cpu)
        else
          .ok (false, { cpu with cache := cpu.cache ++ [offset] })
      | .err e => .err e
      | .crash m => .crash m
    | .err e => .err e
    | .crash m => .crash m
  | 3 =>
    match u16_add cpu.program_counter 1 with
    | .ok addr1 =>
      match discardRead (cpu.bus.read addr1) with
      | .ok _ =>
        match cpu.cache with
        | [] => .crash "index out of bounds"
        | cache0 :: _ =>
          match u16_add cpu.program_counter cache0 with
          | .ok new_program_counter =>
            if get_upper_byte new_program_counter = get_upper_byte cpu.program_counter then
              .ok (true, { cpu with program_counter := new_program_counter })
            else
              .ok (false, { cpu with program_counter :=
                (build_address (get_lower_byte new_program_counter)
                  (get_upper_byte cpu.program_counter)) })
          | .err e => .err e
          | .crash m => .crash m
      | .err e => .err e
      | .crash m => .crash m
    | .err e => .err e
    | .crash m => .crash m
  | 4 =>
    match discardRead cpu.read_program_counter with
    | .ok _ =>
      match u8_add (ε := CycleError) (get_upper_byte cpu.program_counter) 1 with
      | .ok upper1 =>
          .ok (true, { cpu with program_counter :=
            (build_address (get_lower_byte cpu.program_counter) upper1) })
      | .err e => .err e
      | .crash m => .crash m
    | .err e => .err e
    | .crash m => .crash m
  | _ => .err .instructionCycleOutOfBounds

/-- `Cpu::jump_absolute_instruction`.  Modelled from the spec: the
current-revision source only carries the older `jump_absolute` variant,
but the spec requires the fetch snapshot of an absolute jump to carry
its two argument bytes and report 2 idle cycles. -/
def Cpu.jump_absolute_instruction (cpu : Cpu) : RustRes BusError InstructionData :=
  match u16_add cpu.program_counter 1 with
  | .ok addr1 =>
    match cpu.bus.read addr1 with
    | .ok arg_1 =>
      match u16_add cpu.program_counter 2 with
      | .ok addr2 =>
        match cpu.bus.read addr2 with
        | .ok arg_2 => .ok { idle_cycles := 2, arg_1 := some arg_1, arg_2 := some arg_2 }
        | .err e => .err e
        | .crash m => .crash m
      | .err e => .err e
      | .crash m => .crash m
    | .err e => .err e
    | .crash m => .crash m
  | .err e => .err e
  | .crash m => .crash m

/-- `Cpu::jump_absolute_cycles`, following the worked example in the
doc comment of the `impl_instruction_cycles` macro in cpu.rs: cycle 2
caches the low target byte, cycle 3 reads the high byte and loads the
program counter. -/
def Cpu.jump_absolute_cycles (cpu : Cpu) : RustRes CycleError (Bool × Cpu) :=
  match cpu.current_instruction_cycle with
  | 2 =>
    match busToCycle cpu.read_program_counter with
    | .ok low =>
      match u16_add cpu.program_counter 1 with
      | .ok pc1 => .ok (false, { cpu with cache := cpu.cache ++ [low], program_counter := pc1 })
      | .err e => .err e
      | .crash m => .crash m
    | .err e => .err e
    | .crash m => .crash m
  | 3 =>
    match busToCycle cpu.read_program_counter with
    | .ok upper =>
      match cpu.cache with
      | [] => .crash "index out of bounds"
      | cache0 :: _ => .ok (true, { cpu with program_counter := build_address cache0 upper })
    | .err e => .err e
    | .crash m => .crash m
  | _ => .err .instructionCycleOutOfBounds

/-- `Cpu::load_x_register_immediate_instruction` from
cpu/load_x_register.rs: one argument byte, 1 idle cycle. -/
def Cpu.load_x_register_immediate_instruction (cpu : Cpu) : RustRes BusError InstructionData :=
  match u16_add cpu.program_counter 1 with
  | .ok addr1 =>
    match cpu.bus.read addr1 with
    | .ok arg_1 => .ok { idle_cycles := 1, arg_1 := some arg_1, arg_2 := none }
    | .err e => .err e
    | .crash m => .crash m
  | .err e => .err e
  | .crash m => .crash m

/-- `Cpu::load_x_register_immediate_cycles` from cpu/load_x_register.rs:
cycle 2 loads the operand into register X, advances the program counter
and updates the signedness flags from the loaded value. -/
def Cpu.load_x_register_immediate_cycles (cpu : Cpu) : RustRes CycleError (Bool × Cpu) :=
  match cpu.current_instruction_cycle with
  | 2 =>
    match busToCycle cpu.read_program_counter with
    | .ok value =>
      match u16_add cpu.program_counter 1 with
      | .ok pc1 =>
          .ok (true, { cpu with register_x := value, program_counter := pc1, status := set_signedness cpu.status value })
      | .err e => .err e
      | .crash m => .crash m
    | .err e => .err e
    | .crash m => .crash m
  | _ => .err .instructionCycleOutOfBounds

/-- `Cpu::store_x_register_zero_page_instruction`.  Modelled from the
spec: the current-revision source only carries the older
`store_x_register_zero_page` variant; the spec scenario has the
zero-page store take 3 cycles (2 idle) with one argument byte. -/
def Cpu.store_x_register_zero_page_instruction (cpu : Cpu) : RustRes BusError InstructionData :=
  match u16_add cpu.program_counter 1 with
  | .ok addr1 =>
    match cpu.bus.read addr1 with
    | .ok arg_1 => .ok { idle_cycles := 2, arg_1 := some arg_1, arg_2 := none }
    | .err e => .err e
    | .crash m => .crash m
  | .err e => .err e
  | .crash m => .crash m

/-- `Cpu::store_x_register_zero_page_cycles`.  Modelled from the spec:
cycle 2 caches the zero-page address byte, cycle 3 writes register X to
that address (high byte zero) through the bus. -/
def Cpu.store_x_register_zero_page_cycles (cpu : Cpu) : RustRes CycleError (Bool × Cpu) :=
  match cpu.current_instruction_cycle with
  | 2 =>
    match busToCycle cpu.read_program_counter with
    | .ok low =>
      match u16_add cpu.program_counter 1 with
      | .ok pc1 => .ok (false, { cpu with cache := cpu.cache ++ [low], program_counter := pc1 })
      | .err e => .err e
      | .crash m => .crash m
    | .err e => .err e
    | .crash m => .crash m
  | 3 =>
    match cpu.cache with
    | [] => .crash "index out of bounds"
    | cache0 :: _ =>
      match busToCycle (cpu.bus.write (build_address cache0 0x00) cpu.register_x) with
      | .ok bus1 => .ok (true, { cpu with bus := bus1 })
      | .err e => .err e
      | .crash m => .crash m
  | _ => .err .instructionCycleOutOfBounds

/-- `Cpu::jump_to_subroutine_absolute_instruction` from
cpu/subroutine.rs: two argument bytes, 5 idle cycles. -/
def Cpu.jump_to_subroutine_absolute_instruction (cpu : Cpu) : RustRes BusError InstructionData :=
  match u16_add cpu.program_counter 1 with
  | .ok addr1 =>
    match cpu.bus.read addr1 with
    | .ok arg_1 =>
      match u16_add cpu.program_counter 2 with
      | .ok addr2 =>
        match cpu.bus.read addr2 with
        | .ok arg_2 => .ok { idle_cycles := 5, arg_1 := some arg_1, arg_2 := some arg_2 }
        | .err e => .err e
        | .crash m => .crash m
      | .err e => .err e
      | .crash m => .crash m
    | .err e => .err e
    | .crash m => .crash m
  | .err e => .err e
  | .crash m => .crash m

/-- `Cpu::jump_to_subroutine_absolute_cycles` from cpu/subroutine.rs:
cycle 2 caches the low target byte; cycle 3 is the internal-operation
bus read of 0x100; cycles 4 and 5 push the high then the low byte of
the current program counter; cycle 6 reads the high target byte and
loads the program counter. -/
def Cpu.jump_to_subroutine_absolute_cycles (cpu : Cpu) : RustRes CycleError (Bool × Cpu) :=
  match cpu.current_instruction_cycle with
  | 2 =>
    match busToCycle cpu.read_program_counter with
    | .ok low =>
      match u16_add cpu.program_counter 1 with
      | .ok pc1 => .ok (false, { cpu with cache := cpu.cache ++ [low], program_counter := pc1 })
      | .err e => .err e
      | .crash m => .crash m
    | .err e => .err e
    | .crash m => .crash m
  | 3 =>
    match busToCycle (cpu.bus.read 0x100) with
    | .ok _ => .ok (false, cpu)
    | .err e => .err e
    | .crash m => .crash m
  | 4 =>
    match busToCycle (cpu.stack_push (get_upper_byte cpu.program_counter)) with
    | .ok cpu1 => .ok (false, cpu1)
    | .err e => .err e
    | .crash m => .crash m
  | 5 =>
    match busToCycle (cpu.stack_push (get_lower_byte cpu.program_counter)) with
    | .ok cpu1 => .ok (false, cpu1)
    | .err e => .err e
    | .crash m => .crash m
  | 6 =>
    match busToCycle cpu.read_program_counter with
    | .ok program_counter_high =>
      match cpu.cache with
      | [] => .crash "index out of bounds"
      | cache0 :: _ =>
          .ok (true, { cpu with program_counter := build_address cache0 program_counter_high })
    | .err e => .err e
    | .crash m => .crash m
  | _ => .err .instructionCycleOutOfBounds

/-- `Cpu::no_operation_implied_instruction` from cpu/no_operation.rs. -/
def Cpu.no_operation_implied_instruction (_cpu : Cpu) : RustRes BusError InstructionData :=
  .ok { idle_cycles := 1, arg_1 := none, arg_2 := none }

/-- `Cpu::no_operation_cycles` from cpu/no_operation.rs: cycle 2 is a
dummy read whose result (and error) is discarded. -/
def Cpu.no_operation_cycles (cpu : Cpu) : RustRes CycleError (Bool × Cpu) :=
  match cpu.current_instruction_cycle with
  | 2 =>
    match discardRead cpu.read_program_counter with
    | .ok _ => .ok (true, cpu)
    | .err e => .err e
    | .crash m => .crash m
  | _ => .err .instructionCycleOutOfBounds

/-- `Cpu::set_carry_flag_implied_instruction` from cpu/flags.rs. -/
def Cpu.set_carry_flag_implied_instruction (_cpu : Cpu) : RustRes BusError InstructionData :=
  .ok { idle_cycles := 2, arg_1 := none, arg_2 := none }

/-- `Cpu::clear_carry_flag_implied_instruction` from cpu/flags.rs. -/
def Cpu.clear_carry_flag_implied_instruction (_cpu : Cpu) : RustRes BusError InstructionData :=
  .ok { idle_cycles := 2, arg_1 := none, arg_2 := none }

/-- `Cpu::set_carry_flag_implied_cycles` from cpu/flags.rs. -/
def Cpu.set_carry_flag_implied_cycles (cpu : Cpu) : RustRes CycleError (Bool × Cpu) :=
  match cpu.current_instruction_cycle with
  | 2 =>
    match discardRead cpu.read_program_counter with
    | .ok _ => .ok (true, { cpu with status := flagInsert cpu.status CpuStatusFlags.Carry })
    | .err e => .err e
    | .crash m => .crash m
  | _ => .err .instructionCycleOutOfBounds

/-- `Cpu::clear_carry_flag_implied_cycles` from cpu/flags.rs. -/
def Cpu.clear_carry_flag_implied_cycles (cpu : Cpu) : RustRes CycleError (Bool × Cpu) :=
  match cpu.current_instruction_cycle with
  | 2 =>
    match discardRead cpu.read_program_counter with
    | .ok _ => .ok (true, { cpu with status := flagRemove cpu.status CpuStatusFlags.Carry })
    | .err e => .err e
    | .crash m => .crash m
  | _ => .err .instructionCycleOutOfBounds

/-- `Cpu::dispatch_opcode` from cpu.rs: the opcode table; `none` stands
for the `unimplemented!` panic arm. -/
def dispatch_opcode (opcode : Nat) : Option Instruction :=
  if opcode = 0x4C then some .jumpAbsolute
  else if opcode = 0xA2 then some .loadXRegisterImmediate
  else if opcode = 0x86 then some .storeXRegisterZeroPage
  else if opcode = 0x20 then some .jumpToSubroutineAbsolute
  else if opcode = 0xEA then some .noOperationImplied
  else if opcode = 0x38 then some .setCarryFlagImplied
  else if opcode = 0xB0 then some .branchIfCarrySetRelative
  else if opcode = 0x18 then some .clearCarryFlagImplied
  else if opcode = 0x90 then some .branchIfCarryClearRelative
  else if opcode = 0xF0 then some .branchIfEqual
  else if opcode = 0xD0 then some .branchIfNotEqual
  else if opcode = 0x70 then some .branchIfOverflowSet
  else if opcode = 0x50 then some .branchIfOverflowClear
  else if opcode = 0x30 then some .branchIfMinus
  else if opcode = 0x10 then some .branchIfPositive
  else none

/-- `Cpu::dispatch_instruction` from cpu.rs: fetch-time instruction
data for the current instruction. -/
def Cpu.dispatch_instruction (cpu : Cpu) : RustRes BusError InstructionData :=
  match cpu.current_instruction with
  | .jumpAbsolute => cpu.jump_absolute_instruction
  | .loadXRegisterImmediate => cpu.load_x_register_immediate_instruction
  | .storeXRegisterZeroPage => cpu.store_x_register_zero_page_instruction
  | .jumpToSubroutineAbsolute => cpu.jump_to_subroutine_absolute_instruction
  | .noOperationImplied => cpu.no_operation_implied_instruction
  | .setCarryFlagImplied => cpu.set_carry_flag_implied_instruction
  | .branchIfCarrySetRelative => cpu.branch_instruction CpuStatusFlags.Carry false
  | .branchIfCarryClearRelative => cpu.branch_instruction CpuStatusFlags.Carry true
  | .branchIfEqual => cpu.branch_instruction CpuStatusFlags.Zero false
  | .branchIfNotEqual => cpu.branch_instruction CpuStatusFlags.Zero true
  | .branchIfOverflowSet => cpu.branch_instruction CpuStatusFlags.Overflow false
  | .branchIfOverflowClear => cpu.branch_instruction CpuStatusFlags.Overflow true
  | .branchIfMinus => cpu.branch_instruction CpuStatusFlags.Negative false
  | .branchIfPositive => cpu.branch_instruction CpuStatusFlags.Negative true
  | .clearCarryFlagImplied => cpu.clear_carry_flag_implied_instruction
  | .stub => .ok { idle_cycles := 0, arg_1 := none, arg_2 := none }

/-- The per-instruction cycle-handler dispatch of `Cpu::cycle`; the
`Stub` arm is the `panic!` of the source. -/
def Cpu.run_instruction_cycle (cpu : Cpu) : RustRes CycleError (Bool × Cpu) :=
  match cpu.current_instruction with
  | .jumpAbsolute => cpu.jump_absolute_cycles
  | .loadXRegisterImmediate => cpu.load_x_register_immediate_cycles
  | .storeXRegisterZeroPage => cpu.store_x_register_zero_page_cycles
  | .jumpToSubroutineAbsolute => cpu.jump_to_subroutine_absolute_cycles
  | .noOperationImplied => cpu.no_operation_cycles
  | .setCarryFlagImplied => cpu.set_carry_flag_implied_cycles
  | .clearCarryFlagImplied => cpu.clear_carry_flag_implied_cycles
  | .branchIfCarrySetRelative => cpu.branch_cycles CpuStatusFlags.Carry false
  | .branchIfCarryClearRelative => cpu.branch_cycles CpuStatusFlags.Carry true
  | .branchIfEqual => cpu.branch_cycles CpuStatusFlags.Zero false
  | .branchIfNotEqual => cpu.branch_cycles CpuStatusFlags.Zero true
  | .branchIfOverflowSet => cpu.branch_cycles CpuStatusFlags.Overflow false
  | .branchIfOverflowClear => cpu.branch_cycles CpuStatusFlags.Overflow true
  | .branchIfMinus => cpu.branch_cycles CpuStatusFlags.Negative false
  | .branchIfPositive => cpu.branch_cycles CpuStatusFlags.Negative true
  | .stub => .crash "The stub instruction should never go beyond step 1"

/-- `Cpu::cycle` from cpu.rs: bump the total cycle counter; on the
universal fetch cycle take a pre-fetch snapshot, dispatch the opcode,
attach the instruction data and advance; on later cycles run the
current instruction handler, then advance the cycle counter, resetting
it to 1 and clearing the scratch cache when the handler reports the
instruction complete. -/
def Cpu.cycle (cpu : Cpu) : RustRes CpuError (Option CpuSnapshot × Cpu) :=
  match u16_add (ε := CpuError) cpu.cpu_cycles 1 with
  | .ok cc =>
    let cpu := { cpu with cpu_cycles := cc }
    if cpu.current_instruction_cycle = 1 then
      match busToCpu cpu.read_program_counter with
      | .ok opcode_byte =>
        let snapshot : CpuSnapshot :=
          { accumulator := cpu.accumulator, register_x := cpu.register_x, register_y := cpu.register_y, status := cpu.status, stack_pointer := cpu.stack_pointer, program_counter := cpu.program_counter, opcode := opcode_byte, instruction_data := { idle_cycles := 0, arg_1 := none, arg_2 := none }, cpy_cycles := cpu.cpu_cycles }
        match busToCpu (cpu.bus.read cpu.program_counter) with
        | .ok opcode =>
          match dispatch_opcode opcode with
          | none => .crash "the opcode is not implemented yet"
          | some instruction =>
            let cpu := { cpu with current_instruction := instruction }
            match busToCpu cpu.dispatch_instruction with
            | .ok data =>
              match u16_add (ε := CpuError) cpu.program_counter 1 with
              | .ok pc1 =>
                match u8_add (ε := CpuError) cpu.current_instruction_cycle 1 with
                | .ok cyc1 =>
                    .ok (some { snapshot with instruction_data := data }, { cpu with program_counter := pc1, current_instruction_cycle := cyc1 })
                | .err e => .err e
                | .crash m => .crash m
              | .err e => .err e
              | .crash m => .crash m
            | .err e => .err e
            | .crash m => .crash m
        | .err e => .err e
        | .crash m => .crash m
      | .err e => .err e
      | .crash m => .crash m
    else
      match cycleToCpu cpu.run_instruction_cycle with
      | .ok (instruction_ended, cpu1) =>
        match u8_add (ε := CpuError) cpu1.current_instruction_cycle 1 with
        | .ok cyc1 =>
          let cpu2 := { cpu1 with current_instruction_cycle := cyc1 }
          if instruction_ended then
            .ok (none, { cpu2 with current_instruction_cycle := 1, cache := [] })
          else
            .ok (none, cpu2)
        | .err e => .err e
        | .crash m => .crash m
      | .err e => .err e
      | .crash m => .crash m
  | .err e => .err e
  | .crash m => .crash m

/-- `Cpu::new_with_program_counter` from cpu.rs (via `Bus::new`, whose
randomized RAM contents appear as the `ram` parameter). -/
def Cpu.new_with_program_counter (cartridge : Cartridge) (ram : Nat → Nat) (program_counter : Nat) : Cpu :=
  { accumulator := 0, register_x := 0, register_y := 0, status := CpuStatusFlags.Decimal ||| CpuStatusFlags.B, stack_pointer := 0xFD, program_counter := program_counter, current_instruction := .stub, current_instruction_cycle := 1, bus := { cpu_ram := ram, cartridge := cartridge }, cache := [], cpu_cycles := 6 }

/-- `Cpu::new` from cpu.rs: program counter defaults to 0x8000. -/
def Cpu.new (cartridge : Cartridge) (ram : Nat → Nat) : Cpu :=
  Cpu.new_with_program_counter cartridge ram 0x8000

/-- Run `n` successive `Cpu::cycle` calls, discarding the snapshots;
any error or panic aborts the run. -/
def cycleN (cpu : Cpu) : Nat → RustRes CpuError Cpu
  | 0 => .ok cpu
  | n + 1 =>
    match cpu.cycle with
    | .ok (_, cpu1) => cycleN cpu1 n
    | .err e => .err e
    | .crash m => .crash m

/-- The `MockCartridge` of the cpu.rs test module: serves the given
program bytes relative to 0x8000, a NOP opcode beyond them, and accepts
(and ignores) writes. -/
def mockCartridge (prg_data : List Nat) : Cartridge :=
  { read := fun address => .ok (prg_data.getD (address - 0x8000) 0xEA), write := fun _ _ => .ok () }

/-- Arithmetic reading of `get_lower_byte`: the value modulo 256. -/
theorem get_lower_byte_eq (n : Nat) : get_lower_byte n = n % 256 := by
  have h := Nat.and_pow_two_sub_one_eq_mod n 8
  norm_num at h
  simpa [get_lower_byte] using h

/-- Arithmetic reading of `get_upper_byte`: the second byte of the
value. -/
theorem get_upper_byte_eq (n : Nat) : get_upper_byte n = n / 256 % 256 := by
  have h1 : get_upper_byte n = (n >>> 8) &&& 0xFF := by
    apply Nat.eq_of_testBit_eq
    intro i
    rw [get_upper_byte, Nat.testBit_shiftRight, Nat.testBit_and, Nat.testBit_and,
      Nat.testBit_shiftRight]
    rw [show (65280 : Nat) = 255 <<< 8 by decide]
    rw [Nat.testBit_shiftLeft]
    simp
  rw [h1]
  have h2 := Nat.and_pow_two_sub_one_eq_mod (n >>> 8) 8
  norm_num at h2
  rw [h2, Nat.shiftRight_eq_div_pow]

/-- Arithmetic reading of the 11-bit RAM mirroring mask. -/
theorem mask2048_eq (a : Nat) : a &&& 0x07FF = a % 2048 := by
  have h := Nat.and_pow_two_sub_one_eq_mod a 11
  norm_num at h
  exact h

/-- Arithmetic reading of `build_address` on byte-sized low parts. -/
theorem build_address_eq (l u : Nat) (h : l < 256) :
    build_address l u = 256 * u + l := by
  have hs : u <<< 8 = 2 ^ 8 * u := by
    rw [Nat.shiftLeft_eq]; ring
  have hb : l < 2 ^ 8 := by omega
  rw [build_address, hs, Nat.lor_comm, ← Nat.mul_add_lt_is_or hb u]

/-- Equality of cartridge read results is decidable. -/
instance : DecidableEq (Except CartridgeError Nat) :=
  fun a b => match a, b with
  | .ok x, .ok y => if h : x = y then .isTrue (by rw [h]) else .isFalse (by simp [h])
  | .error x, .error y => if h : x = y then .isTrue (by rw [h]) else .isFalse (by simp [h])
  | .ok _, .error _ => .isFalse (by simp)
  | .error _, .ok _ => .isFalse (by simp)

/-- C3: for every RAM-region address, a successful bus write is read
back as the written value at every address congruent to it modulo 2048
inside 0x0000-0x1FFF: both paths index RAM through the low 11 bits,
realizing the four-way mirroring of the 2 KiB RAM. -/
theorem C3_ram_mirroring (b : Bus) (a v a' : Nat)
    (ha : a ≤ 0x1FFF) (ha' : a' ≤ 0x1FFF) (hm : a' % 2048 = a % 2048) :
    ∃ b', b.write a v = .ok b' ∧ b'.read a' = .ok v := by
  have hmask : a' &&& 0x07FF = a &&& 0x07FF := by
    rw [mask2048_eq, mask2048_eq, hm]
  refine ⟨{ b with cpu_ram := fun x => if x = (a &&& 0x07FF) then v else b.cpu_ram x }, ?_, ?_⟩
  · simp [Bus.write, ha]
  · simp [Bus.read, ha', hmask]

/-- A concrete bus for instantiating the RAM-mirroring theorem. -/
def c3Bus : Bus := { cpu_ram := fun _ => 0, cartridge := mockCartridge [] }

/-- Witness: writing 0x42 at 0x0123 is read back at 0x1923, three
mirrors up. -/
theorem C3_ram_mirroring_witness :
    0x0123 ≤ 0x1FFF ∧ (0x1923 : Nat) % 2048 = 0x0123 % 2048 ∧
    ∃ b', c3Bus.write 0x0123 0x42 = .ok b' ∧ b'.read 0x1923 = .ok 0x42 :=
  ⟨by decide, by decide,
    C3_ram_mirroring c3Bus 0x0123 0x42 0x1923 (by decide) (by decide) (by decide)⟩

/-- A ROM distinguishing its lower and upper 16 KiB halves. -/
def c4Rom : Rom := fun index => if index < 0x4000 then 0 else 1

/-- C4: with the 16 KiB capacity flag, NROM mirrors the single bank
across both halves of the 0x8000-0xFFFF window; with the 32 KiB flag
the two halves can differ. -/
theorem C4_nrom_16k_mirrors_32k_does_not :
    (∀ (rom : Rom) (i : Nat), i < 0x4000 →
      Nrom.read ⟨rom, false⟩ (0x8000 + i) = Nrom.read ⟨rom, false⟩ (0xC000 + i)) ∧
    (∃ (rom : Rom) (i : Nat), i < 0x4000 ∧
      Nrom.read ⟨rom, true⟩ (0x8000 + i) ≠ Nrom.read ⟨rom, true⟩ (0xC000 + i)) := by
  constructor
  · intro rom i hi
    simp only [Nrom.read, BYTES_ON_A_KIBIBYTE]
    norm_num
    rw [if_neg (by omega)]
    rw [Nat.mod_eq_of_lt (by omega)]
    rw [show (49152 : Nat) + i - 32768 = 16384 + i by omega, Nat.add_mod_left,
      Nat.mod_eq_of_lt (by omega)]
  · exact ⟨c4Rom, 0, by decide, by decide⟩

/-- Witness: the 16 KiB mirror equality at offset 5. -/
theorem C4_nrom_16k_mirrors_witness :
    (5 : Nat) < 0x4000 ∧
    Nrom.read ⟨c4Rom, false⟩ (0x8000 + 5) = Nrom.read ⟨c4Rom, false⟩ (0xC000 + 5) :=
  ⟨by decide, C4_nrom_16k_mirrors_32k_does_not.1 c4Rom 5 (by decide)⟩

/-- C5: every NROM read below 0x8000 fails with the addressing error,
every NROM write fails with the write-protection error, and a failed
write leaves the cartridge unchanged. -/
theorem C5_nrom_read_write_protection (n : Nrom) (address value : Nat) :
    (address < 0x8000 → n.read address =
      .error (.cannotRead "On a NROM memory mapper read operations below 0x800 are undefined behavior")) ∧
    (n.write address value).1 =
      .error (.cannotWrite "Write operations cannot be done with a NROM memory mapper") ∧
    (n.write address value).2 = n := by
  refine ⟨fun h => ?_, rfl, rfl⟩
  simp [Nrom.read, h]

/-- Witness: the read failure at 0x4020 and the write failure at
0x9000. -/
theorem C5_nrom_protection_witness :
    (0x4020 : Nat) < 0x8000 ∧
    Nrom.read ⟨c4Rom, true⟩ 0x4020 =
      .error (.cannotRead "On a NROM memory mapper read operations below 0x800 are undefined behavior") ∧
    (Nrom.write ⟨c4Rom, true⟩ 0x9000 7).1 =
      .error (.cannotWrite "Write operations cannot be done with a NROM memory mapper") :=
  ⟨by decide,
    (C5_nrom_read_write_protection ⟨c4Rom, true⟩ 0x4020 0).1 (by decide),
    (C5_nrom_read_write_protection ⟨c4Rom, true⟩ 0x9000 7).2.1⟩

/-- C6: `set_signedness` writes both signedness flags from the result
byte: afterwards the Zero bit is set exactly when the signed reading of
the byte is zero and the Negative bit exactly when it is negative,
whatever the previous status was; the load-X-immediate cycle applies
exactly this transform to the loaded byte. -/
theorem C6_signedness_flags (status value : Nat) (_hv : value < 256) :
    ((set_signedness status value).testBit 1 = true ↔ i8_of_u8 value = 0) ∧
    ((set_signedness status value).testBit 7 = true ↔ i8_of_u8 value < 0) ∧
    (∀ (cpu : Cpu) (ended : Bool) (cpu' : Cpu),
      cpu.load_x_register_immediate_cycles = .ok (ended, cpu') →
      cpu'.status = set_signedness cpu.status cpu'.register_x) := by
  have eZ : CpuStatusFlags.Zero = 2 := by decide
  have eN : CpuStatusFlags.Negative = 128 := by decide
  have xZ : (0xFF ^^^ (2 : Nat)) = 253 := by decide
  have xN : (0xFF ^^^ (128 : Nat)) = 127 := by decide
  have t253_1 : Nat.testBit 253 1 = false := by decide
  have t253_7 : Nat.testBit 253 7 = true := by decide
  have t127_1 : Nat.testBit 127 1 = true := by decide
  have t127_7 : Nat.testBit 127 7 = false := by decide
  have t128_7 : Nat.testBit 128 7 = true := by decide
  have t2_1 : Nat.testBit 2 1 = true := by decide
  refine ⟨?_, ?_, ?_⟩
  · unfold set_signedness i8_cmp
    rcases lt_trichotomy (i8_of_u8 value) 0 with h | h | h
    · rw [if_pos h]
      simp only [flagInsert, flagRemove, eZ, eN, xZ]
      rw [show ((status ||| 128) &&& 253).testBit 1 = false by
        simp [Nat.testBit_and, t253_1]]
      simp
      omega
    · rw [if_neg (by omega), if_pos h]
      simp only [flagInsert, flagRemove, eZ, eN, xN]
      rw [show ((status ||| 2) &&& 127).testBit 1 = true by
        simp [Nat.testBit_and, Nat.testBit_lor, t127_1, t2_1]]
      simp [h]
    · rw [if_neg (by omega), if_neg (by omega)]
      simp only [flagRemove, eZ, eN, xZ, xN]
      rw [show ((status &&& 127) &&& 253).testBit 1 = false by
        simp [Nat.testBit_and, t253_1]]
      simp
      omega
  · unfold set_signedness i8_cmp
    rcases lt_trichotomy (i8_of_u8 value) 0 with h | h | h
    · rw [if_pos h]
      simp only [flagInsert, flagRemove, eZ, eN, xZ]
      rw [show ((status ||| 128) &&& 253).testBit 7 = true by
        simp [Nat.testBit_and, Nat.testBit_lor, t253_7, t128_7]]
      simp [h]
    · rw [if_neg (by omega), if_pos h]
      simp only [flagInsert, flagRemove, eZ, eN, xN]
      rw [show ((status ||| 2) &&& 127).testBit 7 = false by
        simp [Nat.testBit_and, t127_7]]
      simp
      omega
    · rw [if_neg (by omega), if_neg (by omega)]
      simp only [flagRemove, eZ, eN, xZ, xN]
      rw [show ((status &&& 127) &&& 253).testBit 7 = false by
        simp [Nat.testBit_and, t253_1, t127_7]]
      simp
      omega
  · intro cpu ended cpu' h
    unfold Cpu.load_x_register_immediate_cycles at h
    repeat split at h
    · rw [RustRes.ok.injEq, Prod.mk.injEq] at h
      obtain ⟨hEnd, hCpu⟩ := h
      subst hCpu
      rfl
    all_goals simp_all

/-- Witness: loading 0x80 sets Negative, loading 0x00 sets Zero. -/
theorem C6_signedness_flags_witness :
    ((set_signedness 0 0x80).testBit 7 = true ↔ i8_of_u8 0x80 < 0) ∧
    ((set_signedness 24 0).testBit 1 = true ↔ i8_of_u8 0 = 0) :=
  ⟨(C6_signedness_flags 0 0x80 (by decide)).2.1, (C6_signedness_flags 24 0 (by decide)).1⟩

/-- C7 counterexample: a PPU-window read and an APU-window write do not
return a typed error (or stub value) as a normal result: both hit the
unimplemented panic of the source, refuting the claim that these
accesses are total and never trap. -/
theorem C7_counterexample :
    c3Bus.read 0x2000 = .crash "PPU registers have not been implemented yet" ∧
    c3Bus.write 0x4000 0 = .crash "APU and IO registers have not been implemented yet" := by
  constructor <;> rfl

/-- C7 amended: every access in 0x2000-0x401F diverges with an
unimplemented panic (so it never aliases into RAM or the cartridge, but
it also never returns a typed error as a normal result). -/
theorem C7_unimplemented_regions_panic (b : Bus) (address value : Nat)
    (hlo : 0x2000 ≤ address) (hhi : address ≤ 0x401F) :
    (∃ msg, b.read address = .crash msg) ∧
    (∃ msg, b.write address value = .crash msg) := by
  constructor
  · unfold Bus.read
    split_ifs with h1 h2 h3
    all_goals
      first
        | exact ⟨_, rfl⟩
        | exact absurd h1 (by omega)
  · unfold Bus.write
    split_ifs with h1 h2 h3
    all_goals
      first
        | exact ⟨_, rfl⟩
        | exact absurd h1 (by omega)

/-- Witness: the panic at address 0x3000. -/
theorem C7_unimplemented_regions_witness :
    (0x2000 : Nat) ≤ 0x3000 ∧ (0x3000 : Nat) ≤ 0x401F ∧
    ((∃ msg, c3Bus.read 0x3000 = .crash msg) ∧
     (∃ msg, c3Bus.write 0x3000 9 = .crash msg)) :=
  ⟨by decide, by decide, C7_unimplemented_regions_panic c3Bus 0x3000 9 (by decide) (by decide)⟩

/-- A freshly constructed CPU whose stack pointer has been walked down
to zero. -/
def c8Cpu : Cpu :=
  { Cpu.new (mockCartridge []) (fun _ => 0) with stack_pointer := 0 }

/-- C8: evaluating `stack_push` at the failing input: with stack
pointer 0x00 the unchecked `u8` decrement overflows and the push aborts
instead of wrapping to 0xFF; with stack pointer at least 1 the push
writes to 0x0100 plus the offset and decrements as the claim states. -/
theorem C8_stack_push_underflow_crash :
    c8Cpu.stack_push 0x42 = .crash "attempt to subtract with overflow" ∧
    (∀ (cpu : Cpu) (value : Nat), 1 ≤ cpu.stack_pointer → cpu.stack_pointer ≤ 0xFF →
      ∃ bus', cpu.bus.write (0x0100 + cpu.stack_pointer) value = .ok bus' ∧
        cpu.stack_push value = .ok { cpu with bus := bus', stack_pointer := cpu.stack_pointer - 1 }) := by
  constructor
  · rfl
  · intro cpu value h1 h2
    have hr : 0x0100 + cpu.stack_pointer ≤ 0x1FFF := by omega
    have hw : cpu.bus.write (0x0100 + cpu.stack_pointer) value =
        .ok { cpu.bus with cpu_ram := fun a =>
          if a = ((0x0100 + cpu.stack_pointer) &&& 0x07FF) then value else cpu.bus.cpu_ram a } := by
      unfold Bus.write
      rw [if_pos hr]
    refine ⟨_, hw, ?_⟩
    unfold Cpu.stack_push STACK_ADDRESS
    rw [hw]
    unfold u8_sub
    rw [if_pos (by omega : 1 ≤ cpu.stack_pointer)]

/-- A bus read in the cartridge window is the cartridge read. -/
theorem bus_read_cart (b : Bus) (addr v : Nat) (h : 0x4020 ≤ addr)
    (hv : b.cartridge.read addr = .ok v) : b.read addr = .ok v := by
  unfold Bus.read
  rw [if_neg (by omega), if_neg (by omega), if_neg (by omega), if_neg (by omega), hv]

/-- A discarded bus read in the cartridge window never aborts. -/
theorem discard_read_cart (ε : Type) (b : Bus) (addr : Nat) (h : 0x4020 ≤ addr) :
    discardRead (ε := ε) (b.read addr) = .ok () := by
  unfold Bus.read
  rw [if_neg (by omega), if_neg (by omega), if_neg (by omega), if_neg (by omega)]
  cases b.cartridge.read addr <;> rfl

/-- Evaluation of `Cpu::cycle` on the universal fetch cycle when the
program counter sits in the cartridge window and every sub-step is
given: the snapshot carries the pre-fetch register file and the
dispatched instruction data, the program counter advances by one and
the cycle counter moves to 2. -/
theorem fetch_step (cpu : Cpu) (op : Nat) (instr : Instruction) (data : InstructionData)
    (h1 : cpu.current_instruction_cycle = 1)
    (hcc : cpu.cpu_cycles + 1 ≤ 0xFFFF)
    (hpc : cpu.program_counter + 1 ≤ 0xFFFF)
    (hreg : 0x4020 ≤ cpu.program_counter)
    (hop : cpu.bus.cartridge.read cpu.program_counter = .ok op)
    (hdis : dispatch_opcode op = some instr)
    (hdata : Cpu.dispatch_instruction
      { cpu with cpu_cycles := cpu.cpu_cycles + 1, current_instruction := instr } = .ok data) :
    cpu.cycle = .ok (some { accumulator := cpu.accumulator, register_x := cpu.register_x, register_y := cpu.register_y, status := cpu.status, stack_pointer := cpu.stack_pointer, program_counter := cpu.program_counter, opcode := op, instruction_data := data, cpy_cycles := cpu.cpu_cycles + 1 },
      { cpu with cpu_cycles := cpu.cpu_cycles + 1, current_instruction := instr, program_counter := cpu.program_counter + 1, current_instruction_cycle := 2 }) := by
  have hread : cpu.bus.read cpu.program_counter = .ok op := bus_read_cart _ _ _ hreg hop
  rw [h1] at hdata
  unfold Cpu.cycle
  unfold u16_add
  rw [if_pos hcc]
  simp only [h1, Cpu.read_program_counter, hread, busToCpu, hdis, if_pos rfl]
  unfold u8_add
  rw [if_pos hpc, if_pos (by norm_num : (1:Nat) + 1 ≤ 0xFF)]
  simp only [hdata, if_true]

/-- Evaluation of `Cpu::cycle` on a handler cycle: the cycle counter
advances, or resets (clearing the cache) when the handler reports the
instruction complete. -/
theorem handler_step (cpu : Cpu) (ended : Bool) (cpu1 : Cpu)
    (h1 : ¬ cpu.current_instruction_cycle = 1)
    (hcc : cpu.cpu_cycles + 1 ≤ 0xFFFF)
    (hrun : Cpu.run_instruction_cycle { cpu with cpu_cycles := cpu.cpu_cycles + 1 } = .ok (ended, cpu1))
    (hcyc : cpu1.current_instruction_cycle + 1 ≤ 0xFF) :
    cpu.cycle = .ok (none,
      if ended then { cpu1 with current_instruction_cycle := 1, cache := [] }
      else { cpu1 with current_instruction_cycle := cpu1.current_instruction_cycle + 1 }) := by
  unfold Cpu.cycle
  unfold u16_add
  rw [if_pos hcc]
  simp only [h1, if_false, hrun, cycleToCpu]
  unfold u8_add
  rw [if_pos hcyc]
  cases ended <;> rfl

/-- The low byte is byte-sized. -/
theorem get_lower_byte_lt (n : Nat) : get_lower_byte n < 256 := by
  rw [get_lower_byte_eq]; omega

/-- The high byte is byte-sized. -/
theorem get_upper_byte_lt (n : Nat) : get_upper_byte n < 256 := by
  rw [get_upper_byte_eq]; omega

/-- High byte of a built address. -/
theorem get_upper_build (l u : Nat) (hl : l < 256) (hu : u < 256) :
    get_upper_byte (build_address l u) = u := by
  rw [build_address_eq l u hl, get_upper_byte_eq]
  omega

/-- Low byte of a built address. -/
theorem get_lower_build (l u : Nat) (hl : l < 256) :
    get_lower_byte (build_address l u) = l := by
  rw [build_address_eq l u hl, get_lower_byte_eq]
  omega

/-- Splitting a 16-bit value into bytes and rebuilding it is the
identity. -/
theorem build_recompose (n : Nat) (h : n ≤ 0xFFFF) :
    build_address (get_lower_byte n) (get_upper_byte n) = n := by
  rw [build_address_eq _ _ (get_lower_byte_lt n), get_lower_byte_eq, get_upper_byte_eq]
  omega

/-- Adding a byte-sized offset moves the high byte up by exactly one
when it changes at all (no 16-bit overflow). -/
theorem upper_byte_step (P D : Nat) (hD : D ≤ 0xFF) (hPD : P + D ≤ 0xFFFF)
    (hcross : get_upper_byte (P + D) ≠ get_upper_byte P) :
    get_upper_byte (P + D) = get_upper_byte P + 1 := by
  rw [get_upper_byte_eq (P + D), get_upper_byte_eq P] at hcross ⊢
  omega

/-- The flag and polarity each branch instruction passes to
`branch_instruction` and `branch_cycles` in the two dispatch tables of
cpu.rs. -/
def branchDispatch : Instruction → Option (Nat × Bool)
  | .branchIfCarrySetRelative => some (CpuStatusFlags.Carry, false)
  | .branchIfCarryClearRelative => some (CpuStatusFlags.Carry, true)
  | .branchIfEqual => some (CpuStatusFlags.Zero, false)
  | .branchIfNotEqual => some (CpuStatusFlags.Zero, true)
  | .branchIfOverflowSet => some (CpuStatusFlags.Overflow, false)
  | .branchIfOverflowClear => some (CpuStatusFlags.Overflow, true)
  | .branchIfMinus => some (CpuStatusFlags.Negative, false)
  | .branchIfPositive => some (CpuStatusFlags.Negative, true)
  | _ => none

/-- Collapse of the cycle-handler dispatch for branch instructions. -/
theorem run_branch (instr : Instruction) (flag : Nat) (invert : Bool)
    (h : branchDispatch instr = some (flag, invert)) (c : Cpu)
    (hc : c.current_instruction = instr) :
    c.run_instruction_cycle = c.branch_cycles flag invert := by
  unfold Cpu.run_instruction_cycle
  rw [hc]
  cases instr <;> simp_all [branchDispatch]

/-- Collapse of the instruction-data dispatch for branch
instructions. -/
theorem data_branch (instr : Instruction) (flag : Nat) (invert : Bool)
    (h : branchDispatch instr = some (flag, invert)) (c : Cpu)
    (hc : c.current_instruction = instr) :
    c.dispatch_instruction = c.branch_instruction flag invert := by
  unfold Cpu.dispatch_instruction
  rw [hc]
  cases instr <;> simp_all [branchDispatch]

/-- Every dispatched branch flag has an assembly prefix. -/
theorem branch_flag_known (instr : Instruction) (flag : Nat) (invert : Bool)
    (h : branchDispatch instr = some (flag, invert)) :
    branchFlagKnown flag = true := by
  cases instr <;> simp_all [branchDispatch]
  all_goals (obtain ⟨h1, h2⟩ := h; rw [← h1]; decide)

/-- Evaluation of `branch_instruction` over a cartridge-resident
branch: the reported idle-cycle count compares the high byte of the
opcode address itself with the high byte of the target. -/
theorem branch_instruction_eval (c : Cpu) (flag : Nat) (invert : Bool) (A D : Nat)
    (hpc : c.program_counter = A)
    (hreg : 0x4020 ≤ A)
    (hAD : A + 2 + D ≤ 0xFFFF)
    (harg : c.bus.cartridge.read (A + 1) = .ok D)
    (hknown : branchFlagKnown flag = true) :
    c.branch_instruction flag invert = .ok {
      idle_cycles := 1 + (if (flagContains c.status flag && !invert) || (!flagContains c.status flag && invert) then 1 + (if get_upper_byte A ≠ get_upper_byte (A + 2 + D) then 1 else 0) else 0),
      arg_1 := some D, arg_2 := none } := by
  have hread : c.bus.read (A + 1) = .ok D := bus_read_cart _ _ _ (by omega) harg
  unfold Cpu.branch_instruction
  unfold u16_add
  simp only [hpc, hread, if_pos (show A + 1 ≤ 0xFFFF by omega),
    if_pos (show A + 2 ≤ 0xFFFF by omega), if_pos (show A + 2 + D ≤ 0xFFFF from hAD),
    hknown, if_true]

/-- Evaluation of `branch_cycles` on cycle 2: fetch the offset,
advance, and either finish (branch not taken) or cache the offset. -/
theorem branch_cycle2_eval (c : Cpu) (flag : Nat) (invert : Bool) (A D : Nat)
    (hcyc : c.current_instruction_cycle = 2)
    (hpc : c.program_counter = A + 1)
    (hreg : 0x4020 ≤ A)
    (hA2 : A + 2 ≤ 0xFFFF)
    (harg : c.bus.cartridge.read (A + 1) = .ok D) :
    c.branch_cycles flag invert =
      if !((flagContains c.status flag && !invert) || (!flagContains c.status flag && invert))
      then .ok (true, { c with program_counter := A + 2 })
      else .ok (false, { c with program_counter := A + 2, cache := c.cache ++ [D] }) := by
  have hread : c.bus.read (A + 1) = .ok D := bus_read_cart _ _ _ (by omega) harg
  have h11 : A + 1 + 1 = A + 2 := by omega
  unfold Cpu.branch_cycles
  unfold u16_add
  simp only [hcyc, Cpu.read_program_counter, hpc, hread, busToCycle, h11,
    if_pos (show A + 2 ≤ 0xFFFF from hA2)]

/-- Evaluation of `branch_cycles` on cycle 3: the redirect; the
page-cross decision compares against the program counter after the
operand fetch, not the opcode address. -/
theorem branch_cycle3_eval (c : Cpu) (flag : Nat) (invert : Bool) (P D : Nat)
    (hcyc : c.current_instruction_cycle = 3)
    (hpc : c.program_counter = P)
    (hreg : 0x4020 ≤ P)
    (hP1 : P + 1 ≤ 0xFFFF)
    (hPD : P + D ≤ 0xFFFF)
    (hcache : c.cache = [D]) :
    c.branch_cycles flag invert =
      if get_upper_byte (P + D) = get_upper_byte P
      then .ok (true, { c with program_counter := P + D })
      else .ok (false, { c with program_counter := build_address (get_lower_byte (P + D)) (get_upper_byte P) }) := by
  have hdis := discard_read_cart CycleError c.bus (P + 1) (by omega)
  unfold Cpu.branch_cycles
  unfold u16_add
  simp only [hcyc, hpc, hcache, hdis, if_pos (show P + 1 ≤ 0xFFFF from hP1),
    if_pos (show P + D ≤ 0xFFFF from hPD)]

/-- Evaluation of `branch_cycles` on cycle 4: patch the high byte by
adding one. -/
theorem branch_cycle4_eval (c : Cpu) (flag : Nat) (invert : Bool) (B : Nat)
    (hcyc : c.current_instruction_cycle = 4)
    (hpc : c.program_counter = B)
    (hreg : 0x4020 ≤ B)
    (hup : get_upper_byte B + 1 ≤ 0xFF) :
    c.branch_cycles flag invert =
      .ok (true, { c with program_counter := build_address (get_lower_byte B) (get_upper_byte B + 1) }) := by
  have hdis := discard_read_cart CycleError c.bus B (by omega)
  unfold Cpu.branch_cycles
  unfold u8_add
  simp only [hcyc, Cpu.read_program_counter, hpc, hdis, if_pos (show get_upper_byte B + 1 ≤ 0xFF from hup)]

/-- The branch condition of cpu/branching.rs: flag set and not
inverted, or flag clear and inverted. -/
def branchTaken (status flag : Nat) (invert : Bool) : Bool :=
  (flagContains status flag && !invert) || (!flagContains status flag && invert)

/-- Unfold one successful step of a `cycleN` run. -/
theorem cycleN_succ (cpu s : Cpu) (o : Option CpuSnapshot) (n : Nat)
    (h : cpu.cycle = .ok (o, s)) : cycleN cpu (n + 1) = cycleN s n := by
  conv_lhs => rw [cycleN]
  rw [h]

/-- The fetch cycle of a branch instruction: the snapshot reports the
idle-cycle count computed from the opcode address page. -/
theorem branch_fetch_exec (cpu : Cpu) (D op : Nat) (instr : Instruction) (flag : Nat) (invert : Bool)
    (hcyc1 : cpu.current_instruction_cycle = 1)
    (hA : 0x8000 ≤ cpu.program_counter)
    (hAD : cpu.program_counter + 3 + D ≤ 0xFFFF)
    (hcc : cpu.cpu_cycles + 4 ≤ 0xFFFF)
    (hop : cpu.bus.cartridge.read cpu.program_counter = .ok op)
    (harg : cpu.bus.cartridge.read (cpu.program_counter + 1) = .ok D)
    (hdis : dispatch_opcode op = some instr)
    (hbr : branchDispatch instr = some (flag, invert)) :
    cpu.cycle = .ok (some
      { accumulator := cpu.accumulator, register_x := cpu.register_x, register_y := cpu.register_y, status := cpu.status, stack_pointer := cpu.stack_pointer, program_counter := cpu.program_counter, opcode := op,
        instruction_data := { idle_cycles := 1 + (if branchTaken cpu.status flag invert then 1 + (if get_upper_byte cpu.program_counter ≠ get_upper_byte (cpu.program_counter + 2 + D) then 1 else 0) else 0), arg_1 := some D, arg_2 := none },
        cpy_cycles := cpu.cpu_cycles + 1 },
      { cpu with cpu_cycles := cpu.cpu_cycles + 1, current_instruction := instr, program_counter := cpu.program_counter + 1, current_instruction_cycle := 2 }) := by
  have hknown : branchFlagKnown flag = true := branch_flag_known instr flag invert hbr
  have hdata : Cpu.dispatch_instruction
      { cpu with cpu_cycles := cpu.cpu_cycles + 1, current_instruction := instr } = .ok
      { idle_cycles := 1 + (if branchTaken cpu.status flag invert then 1 + (if get_upper_byte cpu.program_counter ≠ get_upper_byte (cpu.program_counter + 2 + D) then 1 else 0) else 0),
        arg_1 := some D, arg_2 := none } := by
    rw [data_branch instr flag invert hbr _ rfl]
    exact branch_instruction_eval _ flag invert cpu.program_counter D rfl (by omega) (by omega) harg hknown
  exact fetch_step cpu op instr _ hcyc1 (by omega) (by omega) (by omega) hop hdis hdata

/-- A branch whose condition fails completes after one idle cycle. -/
theorem branch_not_taken_exec (cpu : Cpu) (D op : Nat) (instr : Instruction) (flag : Nat) (invert : Bool)
    (hcyc1 : cpu.current_instruction_cycle = 1)
    (hA : 0x8000 ≤ cpu.program_counter)
    (hAD : cpu.program_counter + 3 + D ≤ 0xFFFF)
    (hcc : cpu.cpu_cycles + 4 ≤ 0xFFFF)
    (hop : cpu.bus.cartridge.read cpu.program_counter = .ok op)
    (harg : cpu.bus.cartridge.read (cpu.program_counter + 1) = .ok D)
    (hdis : dispatch_opcode op = some instr)
    (hbr : branchDispatch instr = some (flag, invert))
    (hnt : branchTaken cpu.status flag invert = false) :
    ∃ s, cycleN cpu 2 = .ok s ∧ s.current_instruction_cycle = 1 ∧ s.cache = [] ∧
      s.program_counter = cpu.program_counter + 2 := by
  have hfetch := branch_fetch_exec cpu D op instr flag invert hcyc1 hA hAD hcc hop harg hdis hbr
  have hrun2 : Cpu.run_instruction_cycle
      { cpu with cpu_cycles := cpu.cpu_cycles + 1 + 1, current_instruction := instr, program_counter := cpu.program_counter + 1, current_instruction_cycle := 2 } =
      .ok (true, { cpu with cpu_cycles := cpu.cpu_cycles + 1 + 1, current_instruction := instr, program_counter := cpu.program_counter + 2, current_instruction_cycle := 2 }) := by
    rw [run_branch instr flag invert hbr _ rfl]
    rw [branch_cycle2_eval
      { cpu with cpu_cycles := cpu.cpu_cycles + 1 + 1, current_instruction := instr, program_counter := cpu.program_counter + 1, current_instruction_cycle := 2 }
      flag invert cpu.program_counter D rfl rfl (by omega) (by omega) harg]
    have hnt2 : ((flagContains cpu.status flag && !invert) || (!flagContains cpu.status flag && invert)) = false := hnt
    simp only [hnt2, Bool.not_false, if_true]
  have hstep2 := handler_step
    { cpu with cpu_cycles := cpu.cpu_cycles + 1, current_instruction := instr, program_counter := cpu.program_counter + 1, current_instruction_cycle := 2 }
    true
    { cpu with cpu_cycles := cpu.cpu_cycles + 1 + 1, current_instruction := instr, program_counter := cpu.program_counter + 2, current_instruction_cycle := 2 }
    (by show ¬ (2 : Nat) = 1; decide) (by show cpu.cpu_cycles + 1 + 1 ≤ 0xFFFF; omega) hrun2
    (by show (2 : Nat) + 1 ≤ 0xFF; decide)
  rw [if_pos rfl] at hstep2
  refine ⟨{ cpu with cpu_cycles := cpu.cpu_cycles + 1 + 1, current_instruction := instr, program_counter := cpu.program_counter + 2, current_instruction_cycle := 1, cache := [] }, ?_, rfl, rfl, rfl⟩
  rw [cycleN_succ _ _ _ _ hfetch, cycleN_succ _ _ _ _ hstep2]
  rfl

/-- A taken branch whose target shares the page of the
post-operand-fetch program counter completes after two idle cycles. -/
theorem branch_taken_same_page_exec (cpu : Cpu) (D op : Nat) (instr : Instruction) (flag : Nat) (invert : Bool)
    (hcyc1 : cpu.current_instruction_cycle = 1)
    (hcache : cpu.cache = [])
    (hA : 0x8000 ≤ cpu.program_counter)
    (hAD : cpu.program_counter + 3 + D ≤ 0xFFFF)
    (hcc : cpu.cpu_cycles + 4 ≤ 0xFFFF)
    (hop : cpu.bus.cartridge.read cpu.program_counter = .ok op)
    (harg : cpu.bus.cartridge.read (cpu.program_counter + 1) = .ok D)
    (hdis : dispatch_opcode op = some instr)
    (hbr : branchDispatch instr = some (flag, invert))
    (ht : branchTaken cpu.status flag invert = true)
    (hsp : get_upper_byte (cpu.program_counter + 2 + D) = get_upper_byte (cpu.program_counter + 2)) :
    ∃ s, cycleN cpu 3 = .ok s ∧ s.current_instruction_cycle = 1 ∧ s.cache = [] ∧
      s.program_counter = cpu.program_counter + 2 + D := by
  have hfetch := branch_fetch_exec cpu D op instr flag invert hcyc1 hA hAD hcc hop harg hdis hbr
  have hrun2 : Cpu.run_instruction_cycle
      { cpu with cpu_cycles := cpu.cpu_cycles + 1 + 1, current_instruction := instr, program_counter := cpu.program_counter + 1, current_instruction_cycle := 2 } =
      .ok (false, { cpu with cpu_cycles := cpu.cpu_cycles + 1 + 1, current_instruction := instr, program_counter := cpu.program_counter + 2, current_instruction_cycle := 2, cache := [D] }) := by
    rw [run_branch instr flag invert hbr _ rfl]
    rw [branch_cycle2_eval
      { cpu with cpu_cycles := cpu.cpu_cycles + 1 + 1, current_instruction := instr, program_counter := cpu.program_counter + 1, current_instruction_cycle := 2 }
      flag invert cpu.program_counter D rfl rfl (by omega) (by omega) harg]
    have ht2 : ((flagContains cpu.status flag && !invert) || (!flagContains cpu.status flag && invert)) = true := ht
    simp only [ht2, Bool.not_true, Bool.false_eq_true, if_false, hcache, List.nil_append]
  have hstep2 := handler_step
    { cpu with cpu_cycles := cpu.cpu_cycles + 1, current_instruction := instr, program_counter := cpu.program_counter + 1, current_instruction_cycle := 2 }
    false
    { cpu with cpu_cycles := cpu.cpu_cycles + 1 + 1, current_instruction := instr, program_counter := cpu.program_counter + 2, current_instruction_cycle := 2, cache := [D] }
    (by show ¬ (2 : Nat) = 1; decide) (by show cpu.cpu_cycles + 1 + 1 ≤ 0xFFFF; omega) hrun2
    (by show (2 : Nat) + 1 ≤ 0xFF; decide)
  rw [if_neg (by decide)] at hstep2
  have hrun3 : Cpu.run_instruction_cycle
      { cpu with cpu_cycles := cpu.cpu_cycles + 1 + 1 + 1, current_instruction := instr, program_counter := cpu.program_counter + 2, current_instruction_cycle := 3, cache := [D] } =
      .ok (true, { cpu with cpu_cycles := cpu.cpu_cycles + 1 + 1 + 1, current_instruction := instr, program_counter := cpu.program_counter + 2 + D, current_instruction_cycle := 3, cache := [D] }) := by
    rw [run_branch instr flag invert hbr _ rfl]
    rw [branch_cycle3_eval
      { cpu with cpu_cycles := cpu.cpu_cycles + 1 + 1 + 1, current_instruction := instr, program_counter := cpu.program_counter + 2, current_instruction_cycle := 3, cache := [D] }
      flag invert (cpu.program_counter + 2) D rfl rfl (by omega) (by omega) (by omega) rfl]
    rw [if_pos hsp]
  have hstep3 := handler_step
    { cpu with cpu_cycles := cpu.cpu_cycles + 1 + 1, current_instruction := instr, program_counter := cpu.program_counter + 2, current_instruction_cycle := 3, cache := [D] }
    true
    { cpu with cpu_cycles := cpu.cpu_cycles + 1 + 1 + 1, current_instruction := instr, program_counter := cpu.program_counter + 2 + D, current_instruction_cycle := 3, cache := [D] }
    (by show ¬ (3 : Nat) = 1; decide) (by show cpu.cpu_cycles + 1 + 1 + 1 ≤ 0xFFFF; omega) hrun3
    (by show (3 : Nat) + 1 ≤ 0xFF; decide)
  rw [if_pos rfl] at hstep3
  refine ⟨{ cpu with cpu_cycles := cpu.cpu_cycles + 1 + 1 + 1, current_instruction := instr, program_counter := cpu.program_counter + 2 + D, current_instruction_cycle := 1, cache := [] }, ?_, rfl, rfl, rfl⟩
  rw [cycleN_succ _ _ _ _ hfetch, cycleN_succ _ _ _ _ hstep2, cycleN_succ _ _ _ _ hstep3]
  rfl

/-- A taken branch that crosses a page (relative to the
post-operand-fetch program counter) completes after three idle cycles,
exposing the broken program counter after the second idle cycle. -/
theorem branch_taken_cross_page_exec (cpu : Cpu) (D op : Nat) (instr : Instruction) (flag : Nat) (invert : Bool)
    (hcyc1 : cpu.current_instruction_cycle = 1)
    (hcache : cpu.cache = [])
    (hA : 0x8000 ≤ cpu.program_counter)
    (hAD : cpu.program_counter + 3 + D ≤ 0xFFFF)
    (hD : D ≤ 0xFF)
    (hcc : cpu.cpu_cycles + 4 ≤ 0xFFFF)
    (hop : cpu.bus.cartridge.read cpu.program_counter = .ok op)
    (harg : cpu.bus.cartridge.read (cpu.program_counter + 1) = .ok D)
    (hdis : dispatch_opcode op = some instr)
    (hbr : branchDispatch instr = some (flag, invert))
    (ht : branchTaken cpu.status flag invert = true)
    (hcross : get_upper_byte (cpu.program_counter + 2 + D) ≠ get_upper_byte (cpu.program_counter + 2)) :
    ∃ s3 s4, cycleN cpu 3 = .ok s3 ∧ s3.current_instruction_cycle = 4 ∧
      s3.program_counter = build_address (get_lower_byte (cpu.program_counter + 2 + D)) (get_upper_byte (cpu.program_counter + 2)) ∧
      cycleN cpu 4 = .ok s4 ∧ s4.current_instruction_cycle = 1 ∧ s4.cache = [] ∧
      s4.program_counter = cpu.program_counter + 2 + D := by
  have hfetch := branch_fetch_exec cpu D op instr flag invert hcyc1 hA hAD hcc hop harg hdis hbr
  have hloT : get_lower_byte (cpu.program_counter + 2 + D) < 256 := get_lower_byte_lt _
  have hhiP : get_upper_byte (cpu.program_counter + 2) < 256 := get_upper_byte_lt _
  have hhiT : get_upper_byte (cpu.program_counter + 2 + D) < 256 := get_upper_byte_lt _
  have hBeq : build_address (get_lower_byte (cpu.program_counter + 2 + D)) (get_upper_byte (cpu.program_counter + 2)) = 256 * get_upper_byte (cpu.program_counter + 2) + get_lower_byte (cpu.program_counter + 2 + D) := build_address_eq _ _ hloT
  have hhiPge : 128 ≤ get_upper_byte (cpu.program_counter + 2) := by
    rw [get_upper_byte_eq]
    omega
  have hregB : 0x4020 ≤ build_address (get_lower_byte (cpu.program_counter + 2 + D)) (get_upper_byte (cpu.program_counter + 2)) := by
    rw [hBeq]
    omega
  have hstep1 : get_upper_byte (cpu.program_counter + 2 + D) = get_upper_byte (cpu.program_counter + 2) + 1 :=
    upper_byte_step (cpu.program_counter + 2) D hD (by omega) hcross
  have hupB : get_upper_byte (build_address (get_lower_byte (cpu.program_counter + 2 + D)) (get_upper_byte (cpu.program_counter + 2))) + 1 ≤ 0xFF := by
    rw [get_upper_build _ _ hloT hhiP]
    omega
  have hfix : build_address (get_lower_byte (build_address (get_lower_byte (cpu.program_counter + 2 + D)) (get_upper_byte (cpu.program_counter + 2)))) (get_upper_byte (build_address (get_lower_byte (cpu.program_counter + 2 + D)) (get_upper_byte (cpu.program_counter + 2))) + 1) = cpu.program_counter + 2 + D := by
    rw [get_lower_build _ _ hloT, get_upper_build _ _ hloT hhiP, ← hstep1, build_recompose _ (by omega)]
  have hrun2 : Cpu.run_instruction_cycle { cpu with cpu_cycles := cpu.cpu_cycles + 1 + 1, current_instruction := instr, program_counter := cpu.program_counter + 1, current_instruction_cycle := 2 } = .ok (false, { cpu with cpu_cycles := cpu.cpu_cycles + 1 + 1, current_instruction := instr, program_counter := cpu.program_counter + 2, current_instruction_cycle := 2, cache := [D] }) := by
    rw [run_branch instr flag invert hbr _ rfl]
    rw [branch_cycle2_eval { cpu with cpu_cycles := cpu.cpu_cycles + 1 + 1, current_instruction := instr, program_counter := cpu.program_counter + 1, current_instruction_cycle := 2 } flag invert cpu.program_counter D rfl rfl (by omega) (by omega) harg]
    have ht2 : ((flagContains cpu.status flag && !invert) || (!flagContains cpu.status flag && invert)) = true := ht
    simp only [ht2, Bool.not_true, Bool.false_eq_true, if_false, hcache, List.nil_append]
  have hstep2 := handler_step { cpu with cpu_cycles := cpu.cpu_cycles + 1, current_instruction := instr, program_counter := cpu.program_counter + 1, current_instruction_cycle := 2 } false { cpu with cpu_cycles := cpu.cpu_cycles + 1 + 1, current_instruction := instr, program_counter := cpu.program_counter + 2, current_instruction_cycle := 2, cache := [D] }
    (by show ¬ (2 : Nat) = 1; decide) (by show cpu.cpu_cycles + 1 + 1 ≤ 0xFFFF; omega) hrun2
    (by show (2 : Nat) + 1 ≤ 0xFF; decide)
  rw [if_neg (by decide)] at hstep2
  have hrun3 : Cpu.run_instruction_cycle { cpu with cpu_cycles := cpu.cpu_cycles + 1 + 1 + 1, current_instruction := instr, program_counter := cpu.program_counter + 2, current_instruction_cycle := 3, cache := [D] } = .ok (false, { cpu with cpu_cycles := cpu.cpu_cycles + 1 + 1 + 1, current_instruction := instr, program_counter := build_address (get_lower_byte (cpu.program_counter + 2 + D)) (get_upper_byte (cpu.program_counter + 2)), current_instruction_cycle := 3, cache := [D] }) := by
    rw [run_branch instr flag invert hbr _ rfl]
    rw [branch_cycle3_eval { cpu with cpu_cycles := cpu.cpu_cycles + 1 + 1 + 1, current_instruction := instr, program_counter := cpu.program_counter + 2, current_instruction_cycle := 3, cache := [D] } flag invert (cpu.program_counter + 2) D rfl rfl (by omega) (by omega) (by omega) rfl]
    rw [if_neg hcross]
  have hstep3 := handler_step { cpu with cpu_cycles := cpu.cpu_cycles + 1 + 1, current_instruction := instr, program_counter := cpu.program_counter + 2, current_instruction_cycle := 3, cache := [D] } false { cpu with cpu_cycles := cpu.cpu_cycles + 1 + 1 + 1, current_instruction := instr, program_counter := build_address (get_lower_byte (cpu.program_counter + 2 + D)) (get_upper_byte (cpu.program_counter + 2)), current_instruction_cycle := 3, cache := [D] }
    (by show ¬ (3 : Nat) = 1; decide) (by show cpu.cpu_cycles + 1 + 1 + 1 ≤ 0xFFFF; omega) hrun3
    (by show (3 : Nat) + 1 ≤ 0xFF; decide)
  rw [if_neg (by decide)] at hstep3
  have hrun4 : Cpu.run_instruction_cycle { cpu with cpu_cycles := cpu.cpu_cycles + 1 + 1 + 1 + 1, current_instruction := instr, program_counter := build_address (get_lower_byte (cpu.program_counter + 2 + D)) (get_upper_byte (cpu.program_counter + 2)), current_instruction_cycle := 4, cache := [D] } = .ok (true, { cpu with cpu_cycles := cpu.cpu_cycles + 1 + 1 + 1 + 1, current_instruction := instr, program_counter := cpu.program_counter + 2 + D, current_instruction_cycle := 4, cache := [D] }) := by
    rw [run_branch instr flag invert hbr _ rfl]
    rw [branch_cycle4_eval { cpu with cpu_cycles := cpu.cpu_cycles + 1 + 1 + 1 + 1, current_instruction := instr, program_counter := build_address (get_lower_byte (cpu.program_counter + 2 + D)) (get_upper_byte (cpu.program_counter + 2)), current_instruction_cycle := 4, cache := [D] } flag invert (build_address (get_lower_byte (cpu.program_counter + 2 + D)) (get_upper_byte (cpu.program_counter + 2))) rfl rfl hregB hupB]
    rw [hfix]
  have hstep4 := handler_step { cpu with cpu_cycles := cpu.cpu_cycles + 1 + 1 + 1, current_instruction := instr, program_counter := build_address (get_lower_byte (cpu.program_counter + 2 + D)) (get_upper_byte (cpu.program_counter + 2)), current_instruction_cycle := 4, cache := [D] } true { cpu with cpu_cycles := cpu.cpu_cycles + 1 + 1 + 1 + 1, current_instruction := instr, program_counter := cpu.program_counter + 2 + D, current_instruction_cycle := 4, cache := [D] }
    (by show ¬ (4 : Nat) = 1; decide) (by show cpu.cpu_cycles + 1 + 1 + 1 + 1 ≤ 0xFFFF; omega) hrun4
    (by show (4 : Nat) + 1 ≤ 0xFF; decide)
  rw [if_pos rfl] at hstep4
  refine ⟨{ cpu with cpu_cycles := cpu.cpu_cycles + 1 + 1 + 1, current_instruction := instr, program_counter := build_address (get_lower_byte (cpu.program_counter + 2 + D)) (get_upper_byte (cpu.program_counter + 2)), current_instruction_cycle := 4, cache := [D] }, { cpu with cpu_cycles := cpu.cpu_cycles + 1 + 1 + 1 + 1, current_instruction := instr, program_counter := cpu.program_counter + 2 + D, current_instruction_cycle := 1, cache := [] }, ?_, rfl, rfl, ?_, rfl, rfl, rfl⟩
  · rw [cycleN_succ _ _ _ _ hfetch, cycleN_succ _ _ _ _ hstep2, cycleN_succ _ _ _ _ hstep3]
    rfl
  · rw [cycleN_succ _ _ _ _ hfetch, cycleN_succ _ _ _ _ hstep2, cycleN_succ _ _ _ _ hstep3, cycleN_succ _ _ _ _ hstep4]
    rfl

/-- A bus read in the RAM window returns the masked RAM cell. -/
theorem bus_read_ram (b : Bus) (addr : Nat) (h : addr ≤ 0x1FFF) :
    b.read addr = .ok (b.cpu_ram (addr &&& 0x07FF)) := by
  unfold Bus.read
  rw [if_pos h]

/-- Evaluation of the JSR fetch data: 5 idle cycles and both operand
bytes. -/
theorem jsr_instruction_eval (c : Cpu) (lo hi : Nat)
    (hA : 0x4020 ≤ c.program_counter)
    (hb : c.program_counter + 2 ≤ 0xFFFF)
    (hlo : c.bus.cartridge.read (c.program_counter + 1) = .ok lo)
    (hhi : c.bus.cartridge.read (c.program_counter + 2) = .ok hi) :
    c.jump_to_subroutine_absolute_instruction = .ok { idle_cycles := 5, arg_1 := some lo, arg_2 := some hi } := by
  have h1 : c.bus.read (c.program_counter + 1) = .ok lo := bus_read_cart _ _ _ (by omega) hlo
  have h2 : c.bus.read (c.program_counter + 2) = .ok hi := bus_read_cart _ _ _ (by omega) hhi
  unfold Cpu.jump_to_subroutine_absolute_instruction
  unfold u16_add
  simp only [if_pos (show c.program_counter + 1 ≤ 0xFFFF by omega),
    if_pos (show c.program_counter + 2 ≤ 0xFFFF from hb), h1, h2]

/-- JSR cycle 2 caches the low target byte. -/
theorem jsr_cycle2_eval (c : Cpu) (lo : Nat) (A : Nat)
    (hcyc : c.current_instruction_cycle = 2)
    (hpc : c.program_counter = A + 1)
    (hreg : 0x4020 ≤ A)
    (hb : A + 2 ≤ 0xFFFF)
    (hlo : c.bus.cartridge.read (A + 1) = .ok lo) :
    c.jump_to_subroutine_absolute_cycles =
      .ok (false, { c with cache := c.cache ++ [lo], program_counter := A + 2 }) := by
  have h1 : c.bus.read (A + 1) = .ok lo := bus_read_cart _ _ _ (by omega) hlo
  have h11 : A + 1 + 1 = A + 2 := by omega
  unfold Cpu.jump_to_subroutine_absolute_cycles
  unfold u16_add
  simp only [hcyc, Cpu.read_program_counter, hpc, h1, busToCycle, h11,
    if_pos (show A + 2 ≤ 0xFFFF from hb)]

/-- JSR cycle 3, the internal operation, leaves the state unchanged. -/
theorem jsr_cycle3_eval (c : Cpu)
    (hcyc : c.current_instruction_cycle = 3) :
    c.jump_to_subroutine_absolute_cycles = .ok (false, c) := by
  have h1 : c.bus.read 0x100 = .ok (c.bus.cpu_ram (0x100 &&& 0x07FF)) := bus_read_ram _ _ (by omega)
  unfold Cpu.jump_to_subroutine_absolute_cycles
  simp only [hcyc, h1, busToCycle]

/-- Evaluation of a stack push with a non-zero stack pointer. -/
theorem stack_push_eval (c : Cpu) (value : Nat)
    (hsp1 : 1 ≤ c.stack_pointer) (hsp2 : c.stack_pointer ≤ 0xFF) :
    c.stack_push value = .ok { c with
      bus := { c.bus with cpu_ram := fun a => if a = ((0x0100 + c.stack_pointer) &&& 0x07FF) then value else c.bus.cpu_ram a },
      stack_pointer := c.stack_pointer - 1 } := by
  unfold Cpu.stack_push STACK_ADDRESS
  unfold Bus.write
  rw [if_pos (show 0x0100 + c.stack_pointer ≤ 0x1FFF by omega)]
  unfold u8_sub
  rw [if_pos hsp1]

/-- JSR cycle 4 pushes the high byte of the program counter. -/
theorem jsr_cycle4_eval (c : Cpu)
    (hcyc : c.current_instruction_cycle = 4)
    (hsp1 : 1 ≤ c.stack_pointer) (hsp2 : c.stack_pointer ≤ 0xFF) :
    c.jump_to_subroutine_absolute_cycles = .ok (false, { c with
      bus := { c.bus with cpu_ram := fun a => if a = ((0x0100 + c.stack_pointer) &&& 0x07FF) then get_upper_byte c.program_counter else c.bus.cpu_ram a },
      stack_pointer := c.stack_pointer - 1 }) := by
  unfold Cpu.jump_to_subroutine_absolute_cycles
  simp only [hcyc, stack_push_eval c _ hsp1 hsp2, busToCycle]

/-- JSR cycle 5 pushes the low byte of the program counter. -/
theorem jsr_cycle5_eval (c : Cpu)
    (hcyc : c.current_instruction_cycle = 5)
    (hsp1 : 1 ≤ c.stack_pointer) (hsp2 : c.stack_pointer ≤ 0xFF) :
    c.jump_to_subroutine_absolute_cycles = .ok (false, { c with
      bus := { c.bus with cpu_ram := fun a => if a = ((0x0100 + c.stack_pointer) &&& 0x07FF) then get_lower_byte c.program_counter else c.bus.cpu_ram a },
      stack_pointer := c.stack_pointer - 1 }) := by
  unfold Cpu.jump_to_subroutine_absolute_cycles
  simp only [hcyc, stack_push_eval c _ hsp1 hsp2, busToCycle]

/-- JSR cycle 6 loads the target into the program counter. -/
theorem jsr_cycle6_eval (c : Cpu) (hi cache0 : Nat) (rest : List Nat)
    (hcyc : c.current_instruction_cycle = 6)
    (hreg : 0x4020 ≤ c.program_counter)
    (hcache : c.cache = cache0 :: rest)
    (hhi : c.bus.cartridge.read c.program_counter = .ok hi) :
    c.jump_to_subroutine_absolute_cycles =
      .ok (true, { c with program_counter := build_address cache0 hi }) := by
  have h1 : c.bus.read c.program_counter = .ok hi := bus_read_cart _ _ _ hreg hhi
  unfold Cpu.jump_to_subroutine_absolute_cycles
  simp only [hcyc, Cpu.read_program_counter, h1, busToCycle, hcache]

/-- Full six-cycle execution of JSR from a fetch state. -/
theorem jsr_exec (cpu : Cpu) (lo hi : Nat)
    (hcyc1 : cpu.current_instruction_cycle = 1)
    (hcache : cpu.cache = [])
    (hA : 0x8000 ≤ cpu.program_counter)
    (hb : cpu.program_counter + 2 ≤ 0xFFFF)
    (hsp : 2 ≤ cpu.stack_pointer)
    (hsp2 : cpu.stack_pointer ≤ 0xFF)
    (hcc : cpu.cpu_cycles + 6 ≤ 0xFFFF)
    (hop : cpu.bus.cartridge.read cpu.program_counter = .ok 0x20)
    (hlo : cpu.bus.cartridge.read (cpu.program_counter + 1) = .ok lo)
    (hhi : cpu.bus.cartridge.read (cpu.program_counter + 2) = .ok hi) :
    cpu.cycle = .ok (some
      { accumulator := cpu.accumulator, register_x := cpu.register_x, register_y := cpu.register_y, status := cpu.status, stack_pointer := cpu.stack_pointer, program_counter := cpu.program_counter, opcode := 0x20,
        instruction_data := { idle_cycles := 5, arg_1 := some lo, arg_2 := some hi },
        cpy_cycles := cpu.cpu_cycles + 1 }, { cpu with cpu_cycles := cpu.cpu_cycles + 1, current_instruction := Instruction.jumpToSubroutineAbsolute, program_counter := cpu.program_counter + 1, current_instruction_cycle := 2 }) ∧
    cycleN cpu 3 = .ok ({ cpu with cpu_cycles := cpu.cpu_cycles + 1 + 1 + 1, current_instruction := Instruction.jumpToSubroutineAbsolute, program_counter := cpu.program_counter + 2, current_instruction_cycle := 4, cache := [lo] }) ∧
    cycleN cpu 4 = .ok ({ cpu with cpu_cycles := cpu.cpu_cycles + 1 + 1 + 1 + 1, current_instruction := Instruction.jumpToSubroutineAbsolute, program_counter := cpu.program_counter + 2, current_instruction_cycle := 5, cache := [lo], bus := { cpu.bus with cpu_ram := fun a => if a = ((0x0100 + cpu.stack_pointer) &&& 0x07FF) then get_upper_byte (cpu.program_counter + 2) else cpu.bus.cpu_ram a }, stack_pointer := cpu.stack_pointer - 1 }) ∧
    cycleN cpu 6 = .ok ({ cpu with cpu_cycles := cpu.cpu_cycles + 1 + 1 + 1 + 1 + 1 + 1, current_instruction := Instruction.jumpToSubroutineAbsolute, program_counter := build_address lo hi, current_instruction_cycle := 1, cache := [], bus := { cpu.bus with cpu_ram := fun a => if a = ((0x0100 + (cpu.stack_pointer - 1)) &&& 0x07FF) then get_lower_byte (cpu.program_counter + 2) else ((fun a => if a = ((0x0100 + cpu.stack_pointer) &&& 0x07FF) then get_upper_byte (cpu.program_counter + 2) else cpu.bus.cpu_ram a) a) }, stack_pointer := cpu.stack_pointer - 1 - 1 }) := by
  have hdata : Cpu.dispatch_instruction { cpu with cpu_cycles := cpu.cpu_cycles + 1, current_instruction := Instruction.jumpToSubroutineAbsolute } = .ok { idle_cycles := 5, arg_1 := some lo, arg_2 := some hi } :=
    jsr_instruction_eval _ lo hi (by show (0x4020:Nat) ≤ cpu.program_counter; omega) (by show cpu.program_counter + 2 ≤ 0xFFFF; omega) hlo hhi
  have hfetch := fetch_step cpu 0x20 Instruction.jumpToSubroutineAbsolute _ hcyc1 (by omega) (by omega) (by omega) hop rfl hdata
  have hrun2 : Cpu.run_instruction_cycle ({ cpu with cpu_cycles := cpu.cpu_cycles + 1 + 1, current_instruction := Instruction.jumpToSubroutineAbsolute, program_counter := cpu.program_counter + 1, current_instruction_cycle := 2 }) = .ok (false, { cpu with cpu_cycles := cpu.cpu_cycles + 1 + 1, current_instruction := Instruction.jumpToSubroutineAbsolute, program_counter := cpu.program_counter + 2, current_instruction_cycle := 2, cache := [lo] }) := by
    rw [show Cpu.run_instruction_cycle ({ cpu with cpu_cycles := cpu.cpu_cycles + 1 + 1, current_instruction := Instruction.jumpToSubroutineAbsolute, program_counter := cpu.program_counter + 1, current_instruction_cycle := 2 }) = Cpu.jump_to_subroutine_absolute_cycles ({ cpu with cpu_cycles := cpu.cpu_cycles + 1 + 1, current_instruction := Instruction.jumpToSubroutineAbsolute, program_counter := cpu.program_counter + 1, current_instruction_cycle := 2 }) from rfl]
    rw [jsr_cycle2_eval ({ cpu with cpu_cycles := cpu.cpu_cycles + 1 + 1, current_instruction := Instruction.jumpToSubroutineAbsolute, program_counter := cpu.program_counter + 1, current_instruction_cycle := 2 }) lo cpu.program_counter rfl rfl (by show (0x4020:Nat) ≤ cpu.program_counter; omega) (by show cpu.program_counter + 2 ≤ 0xFFFF; omega) hlo]
    simp only [hcache, List.nil_append]
  have hstep2 := handler_step ({ cpu with cpu_cycles := cpu.cpu_cycles + 1, current_instruction := Instruction.jumpToSubroutineAbsolute, program_counter := cpu.program_counter + 1, current_instruction_cycle := 2 }) false ({ cpu with cpu_cycles := cpu.cpu_cycles + 1 + 1, current_instruction := Instruction.jumpToSubroutineAbsolute, program_counter := cpu.program_counter + 2, current_instruction_cycle := 2, cache := [lo] })
    (by show ¬ (2 : Nat) = 1; decide) (by show cpu.cpu_cycles + 1 + 1 ≤ 0xFFFF; omega) hrun2
    (by show (2 : Nat) + 1 ≤ 0xFF; decide)
  rw [if_neg (by decide)] at hstep2
  have hrun3 : Cpu.run_instruction_cycle ({ cpu with cpu_cycles := cpu.cpu_cycles + 1 + 1 + 1, current_instruction := Instruction.jumpToSubroutineAbsolute, program_counter := cpu.program_counter + 2, current_instruction_cycle := 3, cache := [lo] }) = .ok (false, { cpu with cpu_cycles := cpu.cpu_cycles + 1 + 1 + 1, current_instruction := Instruction.jumpToSubroutineAbsolute, program_counter := cpu.program_counter + 2, current_instruction_cycle := 3, cache := [lo] }) := by
    rw [show Cpu.run_instruction_cycle ({ cpu with cpu_cycles := cpu.cpu_cycles + 1 + 1 + 1, current_instruction := Instruction.jumpToSubroutineAbsolute, program_counter := cpu.program_counter + 2, current_instruction_cycle := 3, cache := [lo] }) = Cpu.jump_to_subroutine_absolute_cycles ({ cpu with cpu_cycles := cpu.cpu_cycles + 1 + 1 + 1, current_instruction := Instruction.jumpToSubroutineAbsolute, program_counter := cpu.program_counter + 2, current_instruction_cycle := 3, cache := [lo] }) from rfl]
    rw [jsr_cycle3_eval ({ cpu with cpu_cycles := cpu.cpu_cycles + 1 + 1 + 1, current_instruction := Instruction.jumpToSubroutineAbsolute, program_counter := cpu.program_counter + 2, current_instruction_cycle := 3, cache := [lo] }) rfl]
  have hstep3 := handler_step ({ cpu with cpu_cycles := cpu.cpu_cycles + 1 + 1, current_instruction := Instruction.jumpToSubroutineAbsolute, program_counter := cpu.program_counter + 2, current_instruction_cycle := 3, cache := [lo] }) false ({ cpu with cpu_cycles := cpu.cpu_cycles + 1 + 1 + 1, current_instruction := Instruction.jumpToSubroutineAbsolute, program_counter := cpu.program_counter + 2, current_instruction_cycle := 3, cache := [lo] })
    (by show ¬ (3 : Nat) = 1; decide) (by show cpu.cpu_cycles + 1 + 1 + 1 ≤ 0xFFFF; omega) hrun3
    (by show (3 : Nat) + 1 ≤ 0xFF; decide)
  rw [if_neg (by decide)] at hstep3
  have hrun4 : Cpu.run_instruction_cycle ({ cpu with cpu_cycles := cpu.cpu_cycles + 1 + 1 + 1 + 1, current_instruction := Instruction.jumpToSubroutineAbsolute, program_counter := cpu.program_counter + 2, current_instruction_cycle := 4, cache := [lo] }) = .ok (false, { cpu with cpu_cycles := cpu.cpu_cycles + 1 + 1 + 1 + 1, current_instruction := Instruction.jumpToSubroutineAbsolute, program_counter := cpu.program_counter + 2, current_instruction_cycle := 4, cache := [lo], bus := { cpu.bus with cpu_ram := fun a => if a = ((0x0100 + cpu.stack_pointer) &&& 0x07FF) then get_upper_byte (cpu.program_counter + 2) else cpu.bus.cpu_ram a }, stack_pointer := cpu.stack_pointer - 1 }) := by
    rw [show Cpu.run_instruction_cycle ({ cpu with cpu_cycles := cpu.cpu_cycles + 1 + 1 + 1 + 1, current_instruction := Instruction.jumpToSubroutineAbsolute, program_counter := cpu.program_counter + 2, current_instruction_cycle := 4, cache := [lo] }) = Cpu.jump_to_subroutine_absolute_cycles ({ cpu with cpu_cycles := cpu.cpu_cycles + 1 + 1 + 1 + 1, current_instruction := Instruction.jumpToSubroutineAbsolute, program_counter := cpu.program_counter + 2, current_instruction_cycle := 4, cache := [lo] }) from rfl]
    rw [jsr_cycle4_eval ({ cpu with cpu_cycles := cpu.cpu_cycles + 1 + 1 + 1 + 1, current_instruction := Instruction.jumpToSubroutineAbsolute, program_counter := cpu.program_counter + 2, current_instruction_cycle := 4, cache := [lo] }) rfl (by show (1:Nat) ≤ cpu.stack_pointer; omega) (by show cpu.stack_pointer ≤ 0xFF; omega)]
  have hstep4 := handler_step ({ cpu with cpu_cycles := cpu.cpu_cycles + 1 + 1 + 1, current_instruction := Instruction.jumpToSubroutineAbsolute, program_counter := cpu.program_counter + 2, current_instruction_cycle := 4, cache := [lo] }) false ({ cpu with cpu_cycles := cpu.cpu_cycles + 1 + 1 + 1 + 1, current_instruction := Instruction.jumpToSubroutineAbsolute, program_counter := cpu.program_counter + 2, current_instruction_cycle := 4, cache := [lo], bus := { cpu.bus with cpu_ram := fun a => if a = ((0x0100 + cpu.stack_pointer) &&& 0x07FF) then get_upper_byte (cpu.program_counter + 2) else cpu.bus.cpu_ram a }, stack_pointer := cpu.stack_pointer - 1 })
    (by show ¬ (4 : Nat) = 1; decide) (by show cpu.cpu_cycles + 1 + 1 + 1 + 1 ≤ 0xFFFF; omega) hrun4
    (by show (4 : Nat) + 1 ≤ 0xFF; decide)
  rw [if_neg (by decide)] at hstep4
  have hrun5 : Cpu.run_instruction_cycle ({ cpu with cpu_cycles := cpu.cpu_cycles + 1 + 1 + 1 + 1 + 1, current_instruction := Instruction.jumpToSubroutineAbsolute, program_counter := cpu.program_counter + 2, current_instruction_cycle := 5, cache := [lo], bus := { cpu.bus with cpu_ram := fun a => if a = ((0x0100 + cpu.stack_pointer) &&& 0x07FF) then get_upper_byte (cpu.program_counter + 2) else cpu.bus.cpu_ram a }, stack_pointer := cpu.stack_pointer - 1 }) = .ok (false, { cpu with cpu_cycles := cpu.cpu_cycles + 1 + 1 + 1 + 1 + 1, current_instruction := Instruction.jumpToSubroutineAbsolute, program_counter := cpu.program_counter + 2, current_instruction_cycle := 5, cache := [lo], bus := { cpu.bus with cpu_ram := fun a => if a = ((0x0100 + (cpu.stack_pointer - 1)) &&& 0x07FF) then get_lower_byte (cpu.program_counter + 2) else ((fun a => if a = ((0x0100 + cpu.stack_pointer) &&& 0x07FF) then get_upper_byte (cpu.program_counter + 2) else cpu.bus.cpu_ram a) a) }, stack_pointer := cpu.stack_pointer - 1 - 1 }) := by
    rw [show Cpu.run_instruction_cycle ({ cpu with cpu_cycles := cpu.cpu_cycles + 1 + 1 + 1 + 1 + 1, current_instruction := Instruction.jumpToSubroutineAbsolute, program_counter := cpu.program_counter + 2, current_instruction_cycle := 5, cache := [lo], bus := { cpu.bus with cpu_ram := fun a => if a = ((0x0100 + cpu.stack_pointer) &&& 0x07FF) then get_upper_byte (cpu.program_counter + 2) else cpu.bus.cpu_ram a }, stack_pointer := cpu.stack_pointer - 1 }) = Cpu.jump_to_subroutine_absolute_cycles ({ cpu with cpu_cycles := cpu.cpu_cycles + 1 + 1 + 1 + 1 + 1, current_instruction := Instruction.jumpToSubroutineAbsolute, program_counter := cpu.program_counter + 2, current_instruction_cycle := 5, cache := [lo], bus := { cpu.bus with cpu_ram := fun a => if a = ((0x0100 + cpu.stack_pointer) &&& 0x07FF) then get_upper_byte (cpu.program_counter + 2) else cpu.bus.cpu_ram a }, stack_pointer := cpu.stack_pointer - 1 }) from rfl]
    rw [jsr_cycle5_eval ({ cpu with cpu_cycles := cpu.cpu_cycles + 1 + 1 + 1 + 1 + 1, current_instruction := Instruction.jumpToSubroutineAbsolute, program_counter := cpu.program_counter + 2, current_instruction_cycle := 5, cache := [lo], bus := { cpu.bus with cpu_ram := fun a => if a = ((0x0100 + cpu.stack_pointer) &&& 0x07FF) then get_upper_byte (cpu.program_counter + 2) else cpu.bus.cpu_ram a }, stack_pointer := cpu.stack_pointer - 1 }) rfl (by show (1:Nat) ≤ cpu.stack_pointer - 1; omega) (by show cpu.stack_pointer - 1 ≤ 0xFF; omega)]
  have hstep5 := handler_step ({ cpu with cpu_cycles := cpu.cpu_cycles + 1 + 1 + 1 + 1, current_instruction := Instruction.jumpToSubroutineAbsolute, program_counter := cpu.program_counter + 2, current_instruction_cycle := 5, cache := [lo], bus := { cpu.bus with cpu_ram := fun a => if a = ((0x0100 + cpu.stack_pointer) &&& 0x07FF) then get_upper_byte (cpu.program_counter + 2) else cpu.bus.cpu_ram a }, stack_pointer := cpu.stack_pointer - 1 }) false ({ cpu with cpu_cycles := cpu.cpu_cycles + 1 + 1 + 1 + 1 + 1, current_instruction := Instruction.jumpToSubroutineAbsolute, program_counter := cpu.program_counter + 2, current_instruction_cycle := 5, cache := [lo], bus := { cpu.bus with cpu_ram := fun a => if a = ((0x0100 + (cpu.stack_pointer - 1)) &&& 0x07FF) then get_lower_byte (cpu.program_counter + 2) else ((fun a => if a = ((0x0100 + cpu.stack_pointer) &&& 0x07FF) then get_upper_byte (cpu.program_counter + 2) else cpu.bus.cpu_ram a) a) }, stack_pointer := cpu.stack_pointer - 1 - 1 })
    (by show ¬ (5 : Nat) = 1; decide) (by show cpu.cpu_cycles + 1 + 1 + 1 + 1 + 1 ≤ 0xFFFF; omega) hrun5
    (by show (5 : Nat) + 1 ≤ 0xFF; decide)
  rw [if_neg (by decide)] at hstep5
  have hrun6 : Cpu.run_instruction_cycle ({ cpu with cpu_cycles := cpu.cpu_cycles + 1 + 1 + 1 + 1 + 1 + 1, current_instruction := Instruction.jumpToSubroutineAbsolute, program_counter := cpu.program_counter + 2, current_instruction_cycle := 6, cache := [lo], bus := { cpu.bus with cpu_ram := fun a => if a = ((0x0100 + (cpu.stack_pointer - 1)) &&& 0x07FF) then get_lower_byte (cpu.program_counter + 2) else ((fun a => if a = ((0x0100 + cpu.stack_pointer) &&& 0x07FF) then get_upper_byte (cpu.program_counter + 2) else cpu.bus.cpu_ram a) a) }, stack_pointer := cpu.stack_pointer - 1 - 1 }) = .ok (true, { cpu with cpu_cycles := cpu.cpu_cycles + 1 + 1 + 1 + 1 + 1 + 1, current_instruction := Instruction.jumpToSubroutineAbsolute, program_counter := build_address lo hi, current_instruction_cycle := 6, cache := [lo], bus := { cpu.bus with cpu_ram := fun a => if a = ((0x0100 + (cpu.stack_pointer - 1)) &&& 0x07FF) then get_lower_byte (cpu.program_counter + 2) else ((fun a => if a = ((0x0100 + cpu.stack_pointer) &&& 0x07FF) then get_upper_byte (cpu.program_counter + 2) else cpu.bus.cpu_ram a) a) }, stack_pointer := cpu.stack_pointer - 1 - 1 }) := by
    rw [show Cpu.run_instruction_cycle ({ cpu with cpu_cycles := cpu.cpu_cycles + 1 + 1 + 1 + 1 + 1 + 1, current_instruction := Instruction.jumpToSubroutineAbsolute, program_counter := cpu.program_counter + 2, current_instruction_cycle := 6, cache := [lo], bus := { cpu.bus with cpu_ram := fun a => if a = ((0x0100 + (cpu.stack_pointer - 1)) &&& 0x07FF) then get_lower_byte (cpu.program_counter + 2) else ((fun a => if a = ((0x0100 + cpu.stack_pointer) &&& 0x07FF) then get_upper_byte (cpu.program_counter + 2) else cpu.bus.cpu_ram a) a) }, stack_pointer := cpu.stack_pointer - 1 - 1 }) = Cpu.jump_to_subroutine_absolute_cycles ({ cpu with cpu_cycles := cpu.cpu_cycles + 1 + 1 + 1 + 1 + 1 + 1, current_instruction := Instruction.jumpToSubroutineAbsolute, program_counter := cpu.program_counter + 2, current_instruction_cycle := 6, cache := [lo], bus := { cpu.bus with cpu_ram := fun a => if a = ((0x0100 + (cpu.stack_pointer - 1)) &&& 0x07FF) then get_lower_byte (cpu.program_counter + 2) else ((fun a => if a = ((0x0100 + cpu.stack_pointer) &&& 0x07FF) then get_upper_byte (cpu.program_counter + 2) else cpu.bus.cpu_ram a) a) }, stack_pointer := cpu.stack_pointer - 1 - 1 }) from rfl]
    rw [jsr_cycle6_eval ({ cpu with cpu_cycles := cpu.cpu_cycles + 1 + 1 + 1 + 1 + 1 + 1, current_instruction := Instruction.jumpToSubroutineAbsolute, program_counter := cpu.program_counter + 2, current_instruction_cycle := 6, cache := [lo], bus := { cpu.bus with cpu_ram := fun a => if a = ((0x0100 + (cpu.stack_pointer - 1)) &&& 0x07FF) then get_lower_byte (cpu.program_counter + 2) else ((fun a => if a = ((0x0100 + cpu.stack_pointer) &&& 0x07FF) then get_upper_byte (cpu.program_counter + 2) else cpu.bus.cpu_ram a) a) }, stack_pointer := cpu.stack_pointer - 1 - 1 }) hi lo [] rfl (by show (0x4020 : Nat) ≤ cpu.program_counter + 2; omega) rfl hhi]
  have hstep6 := handler_step ({ cpu with cpu_cycles := cpu.cpu_cycles + 1 + 1 + 1 + 1 + 1, current_instruction := Instruction.jumpToSubroutineAbsolute, program_counter := cpu.program_counter + 2, current_instruction_cycle := 6, cache := [lo], bus := { cpu.bus with cpu_ram := fun a => if a = ((0x0100 + (cpu.stack_pointer - 1)) &&& 0x07FF) then get_lower_byte (cpu.program_counter + 2) else ((fun a => if a = ((0x0100 + cpu.stack_pointer) &&& 0x07FF) then get_upper_byte (cpu.program_counter + 2) else cpu.bus.cpu_ram a) a) }, stack_pointer := cpu.stack_pointer - 1 - 1 }) true ({ cpu with cpu_cycles := cpu.cpu_cycles + 1 + 1 + 1 + 1 + 1 + 1, current_instruction := Instruction.jumpToSubroutineAbsolute, program_counter := build_address lo hi, current_instruction_cycle := 6, cache := [lo], bus := { cpu.bus with cpu_ram := fun a => if a = ((0x0100 + (cpu.stack_pointer - 1)) &&& 0x07FF) then get_lower_byte (cpu.program_counter + 2) else ((fun a => if a = ((0x0100 + cpu.stack_pointer) &&& 0x07FF) then get_upper_byte (cpu.program_counter + 2) else cpu.bus.cpu_ram a) a) }, stack_pointer := cpu.stack_pointer - 1 - 1 })
    (by show ¬ (6 : Nat) = 1; decide) (by show cpu.cpu_cycles + 1 + 1 + 1 + 1 + 1 + 1 ≤ 0xFFFF; omega) hrun6
    (by show (6 : Nat) + 1 ≤ 0xFF; decide)
  rw [if_pos rfl] at hstep6
  refine ⟨hfetch, ?_, ?_, ?_⟩
  · rw [cycleN_succ _ _ _ _ hfetch, cycleN_succ _ _ _ _ hstep2, cycleN_succ _ _ _ _ hstep3]
    rfl
  · rw [cycleN_succ _ _ _ _ hfetch, cycleN_succ _ _ _ _ hstep2, cycleN_succ _ _ _ _ hstep3, cycleN_succ _ _ _ _ hstep4]
    rfl
  · rw [cycleN_succ _ _ _ _ hfetch, cycleN_succ _ _ _ _ hstep2, cycleN_succ _ _ _ _ hstep3, cycleN_succ _ _ _ _ hstep4, cycleN_succ _ _ _ _ hstep5, cycleN_succ _ _ _ _ hstep6]
    rfl

/-- A cartridge holding a BCS with offset 0 at address 0x80FE. -/
def c1Cart : Cartridge :=
  { read := fun a => .ok (if a = 0x80FE then 0xB0 else if a = 0x80FF then 0x00 else 0xEA),
    write := fun _ _ => .ok () }

/-- A CPU about to execute BCS at 0x80FE with the carry flag set. -/
def c1Cpu : Cpu :=
  { Cpu.new_with_program_counter c1Cart (fun _ => 0) 0x80FE with
    status := CpuStatusFlags.Decimal ||| CpuStatusFlags.B ||| CpuStatusFlags.Carry }

/-- Observe the cycle counter and program counter after a run. -/
def runState (cpu : Cpu) (n : Nat) : Option (Nat × Nat) :=
  match cycleN cpu n with
  | .ok s => some (s.current_instruction_cycle, s.program_counter)
  | _ => none

/-- Observe the idle-cycle count reported by the fetch snapshot. -/
def fetchIdle (cpu : Cpu) : Option Nat :=
  match cpu.cycle with
  | .ok (some snap, _) => some snap.instruction_data.idle_cycles
  | _ => none

/-- C1 counterexample: for the BCS at 0x80FE with offset 0 and the
carry set, the branch is taken and the target high byte (0x81) differs
from the opcode address high byte (0x80), so the claim demands exactly
3 idle cycles with a transient broken program counter; the machine
instead completes the instruction after 2 idle cycles (3 calls), ending
at the fetch state with the final program counter 0x8100, even though
the snapshot reported 3 idle cycles. -/
theorem C1_counterexample :
    branchTaken c1Cpu.status CpuStatusFlags.Carry false = true ∧
    get_upper_byte (0x80FE + 2 + 0x00) ≠ get_upper_byte 0x80FE ∧
    fetchIdle c1Cpu = some 3 ∧
    runState c1Cpu 3 = some (1, 0x8100) := by
  refine ⟨by decide, by decide, rfl, rfl⟩

/-- C1 amended: branch-not-taken consumes exactly 1 idle cycle;
branch-taken consumes 2, or 3 when the page-cross criterion holds -
where the consumed-cycle criterion compares the high byte of the target
with the high byte of the program counter after the operand fetch
(opcode address + 2), not the opcode address itself; the reported
idle-cycle count in the fetch snapshot uses the opcode address page and
can therefore disagree on the last two bytes of a page; in the crossing
case the program counter after the second idle cycle transiently holds
the correct low byte with the stale high byte, patched on the following
cycle. -/
theorem C1_branch_timing_amended (cpu : Cpu) (D op : Nat) (instr : Instruction) (flag : Nat) (invert : Bool)
    (hcyc1 : cpu.current_instruction_cycle = 1)
    (hcache : cpu.cache = [])
    (hA : 0x8000 ≤ cpu.program_counter)
    (hAD : cpu.program_counter + 3 + D ≤ 0xFFFF)
    (hD : D ≤ 0xFF)
    (hcc : cpu.cpu_cycles + 4 ≤ 0xFFFF)
    (hop : cpu.bus.cartridge.read cpu.program_counter = .ok op)
    (harg : cpu.bus.cartridge.read (cpu.program_counter + 1) = .ok D)
    (hdis : dispatch_opcode op = some instr)
    (hbr : branchDispatch instr = some (flag, invert)) :
    (∃ snap s1, cpu.cycle = .ok (some snap, s1) ∧
      snap.instruction_data.idle_cycles =
        1 + (if branchTaken cpu.status flag invert then 1 + (if get_upper_byte cpu.program_counter ≠ get_upper_byte (cpu.program_counter + 2 + D) then 1 else 0) else 0)) ∧
    (branchTaken cpu.status flag invert = false →
      ∃ s, cycleN cpu 2 = .ok s ∧ s.current_instruction_cycle = 1 ∧ s.cache = [] ∧
        s.program_counter = cpu.program_counter + 2) ∧
    (branchTaken cpu.status flag invert = true →
      get_upper_byte (cpu.program_counter + 2 + D) = get_upper_byte (cpu.program_counter + 2) →
      ∃ s, cycleN cpu 3 = .ok s ∧ s.current_instruction_cycle = 1 ∧ s.cache = [] ∧
        s.program_counter = cpu.program_counter + 2 + D) ∧
    (branchTaken cpu.status flag invert = true →
      get_upper_byte (cpu.program_counter + 2 + D) ≠ get_upper_byte (cpu.program_counter + 2) →
      ∃ s3 s4, cycleN cpu 3 = .ok s3 ∧ s3.current_instruction_cycle = 4 ∧
        s3.program_counter =
          build_address (get_lower_byte (cpu.program_counter + 2 + D)) (get_upper_byte (cpu.program_counter + 2)) ∧
        cycleN cpu 4 = .ok s4 ∧ s4.current_instruction_cycle = 1 ∧ s4.cache = [] ∧
        s4.program_counter = cpu.program_counter + 2 + D) := by
  refine ⟨⟨_, _, branch_fetch_exec cpu D op instr flag invert hcyc1 hA hAD hcc hop harg hdis hbr, rfl⟩,
    fun hnt => branch_not_taken_exec cpu D op instr flag invert hcyc1 hA hAD hcc hop harg hdis hbr hnt,
    fun ht hsp => branch_taken_same_page_exec cpu D op instr flag invert hcyc1 hcache hA hAD hcc hop harg hdis hbr ht hsp,
    fun ht hcr => branch_taken_cross_page_exec cpu D op instr flag invert hcyc1 hcache hA hAD hD hcc hop harg hdis hbr ht hcr⟩

/-- A CPU about to run BCS with offset 0xFE from 0x8000, carry set. -/
def c1wCpu : Cpu :=
  { Cpu.new (mockCartridge [0xB0, 0xFE]) (fun _ => 0) with
    status := CpuStatusFlags.Decimal ||| CpuStatusFlags.B ||| CpuStatusFlags.Carry }

/-- Witness: BCS at 0x8000 with offset 0xFE and carry set crosses a
page, exposing the broken program counter 0x8000 before the fix to
0x8100. -/
theorem C1_branch_timing_amended_witness :
    ∃ s3 s4, cycleN c1wCpu 3 = .ok s3 ∧ s3.current_instruction_cycle = 4 ∧
      s3.program_counter = build_address (get_lower_byte (0x8000 + 2 + 0xFE)) (get_upper_byte (0x8000 + 2)) ∧
      cycleN c1wCpu 4 = .ok s4 ∧ s4.current_instruction_cycle = 1 ∧ s4.cache = [] ∧
      s4.program_counter = 0x8000 + 2 + 0xFE :=
  (C1_branch_timing_amended c1wCpu 0xFE 0xB0 .branchIfCarrySetRelative CpuStatusFlags.Carry false
    rfl rfl (by decide) (by decide) (by decide) (by decide) (by decide) (by decide) (by decide)
    (by decide)).2.2.2 (by decide) (by decide)

/-- C10: the branch offset byte is zero-extended, so a taken branch
lands at opcode address + 2 + offset, never below the branch opcode;
and when the page-cross fix cycle runs, it increments the high byte of
the transient program counter by exactly one. -/
theorem C10_branch_zero_extended_offset (cpu : Cpu) (D op : Nat) (instr : Instruction) (flag : Nat) (invert : Bool)
    (hcyc1 : cpu.current_instruction_cycle = 1)
    (hcache : cpu.cache = [])
    (hA : 0x8000 ≤ cpu.program_counter)
    (hAD : cpu.program_counter + 3 + D ≤ 0xFFFF)
    (hD : D ≤ 0xFF)
    (hcc : cpu.cpu_cycles + 4 ≤ 0xFFFF)
    (hop : cpu.bus.cartridge.read cpu.program_counter = .ok op)
    (harg : cpu.bus.cartridge.read (cpu.program_counter + 1) = .ok D)
    (hdis : dispatch_opcode op = some instr)
    (hbr : branchDispatch instr = some (flag, invert))
    (ht : branchTaken cpu.status flag invert = true) :
    (get_upper_byte (cpu.program_counter + 2 + D) = get_upper_byte (cpu.program_counter + 2) →
      ∃ s, cycleN cpu 3 = .ok s ∧ s.program_counter = cpu.program_counter + 2 + D ∧
        cpu.program_counter ≤ s.program_counter) ∧
    (get_upper_byte (cpu.program_counter + 2 + D) ≠ get_upper_byte (cpu.program_counter + 2) →
      ∃ s3 s4, cycleN cpu 3 = .ok s3 ∧ cycleN cpu 4 = .ok s4 ∧
        s4.program_counter = cpu.program_counter + 2 + D ∧
        cpu.program_counter ≤ s4.program_counter ∧
        get_upper_byte s4.program_counter = get_upper_byte s3.program_counter + 1) := by
  constructor
  · intro hsp
    obtain ⟨s, h1, _, _, hpc⟩ :=
      branch_taken_same_page_exec cpu D op instr flag invert hcyc1 hcache hA hAD hcc hop harg hdis hbr ht hsp
    refine ⟨s, h1, hpc, ?_⟩
    rw [hpc]
    omega
  · intro hcr
    obtain ⟨s3, s4, h3, _, hpc3, h4, _, _, hpc4⟩ :=
      branch_taken_cross_page_exec cpu D op instr flag invert hcyc1 hcache hA hAD hD hcc hop harg hdis hbr ht hcr
    refine ⟨s3, s4, h3, h4, hpc4, ?_, ?_⟩
    · rw [hpc4]
      omega
    · rw [hpc4, hpc3, get_upper_build _ _ (get_lower_byte_lt _) (get_upper_byte_lt _)]
      exact upper_byte_step _ D hD (by omega) hcr

/-- Witness: the page-crossing BCS from the C1 witness moves forward
and the fix adds exactly one page. -/
theorem C10_branch_zero_extended_witness :
    ∃ s3 s4, cycleN c1wCpu 3 = .ok s3 ∧ cycleN c1wCpu 4 = .ok s4 ∧
      s4.program_counter = 0x8000 + 2 + 0xFE ∧
      (0x8000 : Nat) ≤ s4.program_counter ∧
      get_upper_byte s4.program_counter = get_upper_byte s3.program_counter + 1 :=
  (C10_branch_zero_extended_offset c1wCpu 0xFE 0xB0 .branchIfCarrySetRelative CpuStatusFlags.Carry false
    rfl rfl (by decide) (by decide) (by decide) (by decide) (by decide) (by decide) (by decide)
    (by decide) (by decide)).2 (by decide)

/-- C2: a JSR at program counter p reports 5 idle cycles in the fetch
snapshot (6 cycles in all), spends cycle 3 as an internal operation
with no architectural effect, pushes the high byte of p + 2 first and
the low byte second (one stack slot lower), and ends at the fetch state
with the program counter loaded from the operand bytes and the stack
pointer lowered by two. -/
theorem C2_jsr_push_order_and_timing (cpu : Cpu) (lo hi : Nat)
    (hcyc1 : cpu.current_instruction_cycle = 1)
    (hcache : cpu.cache = [])
    (hA : 0x8000 ≤ cpu.program_counter)
    (hb : cpu.program_counter + 2 ≤ 0xFFFF)
    (hsp : 2 ≤ cpu.stack_pointer)
    (hsp2 : cpu.stack_pointer ≤ 0xFF)
    (hcc : cpu.cpu_cycles + 6 ≤ 0xFFFF)
    (hop : cpu.bus.cartridge.read cpu.program_counter = .ok 0x20)
    (hlo : cpu.bus.cartridge.read (cpu.program_counter + 1) = .ok lo)
    (hhi : cpu.bus.cartridge.read (cpu.program_counter + 2) = .ok hi) :
    (∃ snap s1, cpu.cycle = .ok (some snap, s1) ∧ snap.instruction_data.idle_cycles = 5) ∧
    (∃ s3 s4, cycleN cpu 3 = .ok s3 ∧ cycleN cpu 4 = .ok s4 ∧
      s3.program_counter = cpu.program_counter + 2 ∧ s3.stack_pointer = cpu.stack_pointer ∧
      s3.bus = cpu.bus ∧
      s4.stack_pointer = cpu.stack_pointer - 1 ∧
      s4.bus.read (0x0100 + cpu.stack_pointer) = .ok (get_upper_byte (cpu.program_counter + 2)) ∧
      s4.bus.cpu_ram (0x0100 + cpu.stack_pointer - 1) = cpu.bus.cpu_ram (0x0100 + cpu.stack_pointer - 1)) ∧
    (∃ s, cycleN cpu 6 = .ok s ∧ s.current_instruction_cycle = 1 ∧ s.cache = [] ∧
      s.program_counter = build_address lo hi ∧ s.stack_pointer = cpu.stack_pointer - 2 ∧
      s.bus.read (0x0100 + cpu.stack_pointer) = .ok (get_upper_byte (cpu.program_counter + 2)) ∧
      s.bus.read (0x0100 + cpu.stack_pointer - 1) = .ok (get_lower_byte (cpu.program_counter + 2))) := by
  obtain ⟨hfetch, h3, h4, h6⟩ := jsr_exec cpu lo hi hcyc1 hcache hA hb hsp hsp2 hcc hop hlo hhi
  have hm1 : (0x0100 + cpu.stack_pointer) &&& 0x07FF = 0x0100 + cpu.stack_pointer := by
    rw [mask2048_eq]
    omega
  have hm2 : (0x0100 + (cpu.stack_pointer - 1)) &&& 0x07FF = 0x0100 + (cpu.stack_pointer - 1) := by
    rw [mask2048_eq]
    omega
  refine ⟨⟨_, _, hfetch, rfl⟩, ⟨_, _, h3, h4, rfl, rfl, rfl, ?_, ?_, ?_⟩, ⟨_, h6, rfl, rfl, rfl, ?_, ?_, ?_⟩⟩
  · rfl
  · rw [bus_read_ram _ _ (by omega)]
    simp [hm1]
  · simp only [hm1]
    rw [if_neg (by omega)]
  · show cpu.stack_pointer - 1 - 1 = cpu.stack_pointer - 2
    omega
  · rw [bus_read_ram _ _ (by omega)]
    simp only [hm1, hm2]
    rw [if_neg (by omega)]
    simp
  · rw [show (0x0100 + cpu.stack_pointer - 1 : Nat) = 0x0100 + (cpu.stack_pointer - 1) by omega]
    rw [bus_read_ram _ _ (by omega)]
    simp only [hm2]
    simp

/-- A CPU about to run the opcode stream 0x20 0xEE 0x77 from 0x8000. -/
def c2Cpu : Cpu := Cpu.new (mockCartridge [0x20, 0xEE, 0x77]) (fun _ => 0)

/-- Witness: the concrete scenario of the claim: stream 0x20 0xEE 0x77
from 0x8000 ends at 0x77EE with 0x80 then 0x02 on the stack and 5
reported idle cycles. -/
theorem C2_jsr_witness :
    build_address 0xEE 0x77 = 0x77EE ∧ get_upper_byte 0x8002 = 0x80 ∧ get_lower_byte 0x8002 = 0x02 ∧
    (∃ snap s1, c2Cpu.cycle = .ok (some snap, s1) ∧ snap.instruction_data.idle_cycles = 5) ∧
    (∃ s, cycleN c2Cpu 6 = .ok s ∧ s.current_instruction_cycle = 1 ∧ s.cache = [] ∧
      s.program_counter = build_address 0xEE 0x77 ∧ s.stack_pointer = 0xFB ∧
      s.bus.read 0x01FD = .ok (get_upper_byte 0x8002) ∧
      s.bus.read 0x01FC = .ok (get_lower_byte 0x8002)) :=
  ⟨by decide, by decide, by decide,
    (C2_jsr_push_order_and_timing c2Cpu 0xEE 0x77 rfl rfl (by decide) (by decide) (by decide)
      (by decide) (by decide) (by decide) (by decide) (by decide)).1,
    (C2_jsr_push_order_and_timing c2Cpu 0xEE 0x77 rfl rfl (by decide) (by decide) (by decide)
      (by decide) (by decide) (by decide) (by decide) (by decide)).2.2⟩

/-- Inversion of the bus-to-cycle error conversion on success. -/
theorem busToCycle_ok {α : Type} (r : RustRes BusError α) (a : α)
    (h : busToCycle r = .ok a) : r = .ok a := by
  cases r <;> simp_all [busToCycle]

/-- Inversion of the cycle-to-cpu error conversion on success. -/
theorem cycleToCpu_ok {α : Type} (r : RustRes CycleError α) (a : α)
    (h : cycleToCpu r = .ok a) : r = .ok a := by
  cases r <;> simp_all [cycleToCpu]

/-- A successful stack push leaves the cycle counter and cache
untouched. -/
theorem stack_push_ctr_cache (c : Cpu) (v : Nat) (c1 : Cpu)
    (h : c.stack_push v = .ok c1) :
    c1.current_instruction_cycle = c.current_instruction_cycle ∧ c1.cache = c.cache := by
  unfold Cpu.stack_push at h
  repeat split at h
  all_goals simp_all
  subst h
  exact ⟨rfl, rfl⟩

/-- Branch handler cycles never change the cycle counter and only
append to the cache. -/
theorem branch_cycles_ctr_cache (c : Cpu) (flag : Nat) (invert : Bool) (ended : Bool) (cpu1 : Cpu)
    (h : c.branch_cycles flag invert = .ok (ended, cpu1)) :
    cpu1.current_instruction_cycle = c.current_instruction_cycle ∧ c.cache <+: cpu1.cache := by
  unfold Cpu.branch_cycles at h
  repeat (any_goals (split at h))
  all_goals
    try
      first
        | (rw [RustRes.ok.injEq, Prod.mk.injEq] at h
           obtain ⟨hE, hC⟩ := h
           subst hC
           refine ⟨rfl, ?_⟩
           first
             | exact List.prefix_rfl
             | exact List.prefix_append _ _)
        | simp_all
  all_goals split at h
  all_goals
    first
      | (rw [RustRes.ok.injEq, Prod.mk.injEq] at h
         obtain ⟨hE, hC⟩ := h
         subst hC
         refine ⟨rfl, ?_⟩
         first
           | exact List.prefix_rfl
           | exact List.prefix_append _ _)
      | simp_all

/-- The absolute-jump handler never changes the cycle counter and only
appends to the cache. -/
theorem jump_absolute_cycles_ctr_cache (c : Cpu) (ended : Bool) (cpu1 : Cpu)
    (h : c.jump_absolute_cycles = .ok (ended, cpu1)) :
    cpu1.current_instruction_cycle = c.current_instruction_cycle ∧ c.cache <+: cpu1.cache := by
  unfold Cpu.jump_absolute_cycles at h
  repeat (any_goals (split at h))
  all_goals
    first
      | (rw [RustRes.ok.injEq, Prod.mk.injEq] at h
         obtain ⟨hE, hC⟩ := h
         subst hC
         refine ⟨rfl, ?_⟩
         first
           | exact List.prefix_rfl
           | exact List.prefix_append _ _)
      | simp_all

/-- The load-X handler never changes the cycle counter or shrinks the
cache. -/
theorem load_x_cycles_ctr_cache (c : Cpu) (ended : Bool) (cpu1 : Cpu)
    (h : c.load_x_register_immediate_cycles = .ok (ended, cpu1)) :
    cpu1.current_instruction_cycle = c.current_instruction_cycle ∧ c.cache <+: cpu1.cache := by
  unfold Cpu.load_x_register_immediate_cycles at h
  repeat (any_goals (split at h))
  all_goals
    first
      | (rw [RustRes.ok.injEq, Prod.mk.injEq] at h
         obtain ⟨hE, hC⟩ := h
         subst hC
         refine ⟨rfl, ?_⟩
         first
           | exact List.prefix_rfl
           | exact List.prefix_append _ _)
      | simp_all

/-- The store-X handler never changes the cycle counter and only
appends to the cache. -/
theorem store_x_cycles_ctr_cache (c : Cpu) (ended : Bool) (cpu1 : Cpu)
    (h : c.store_x_register_zero_page_cycles = .ok (ended, cpu1)) :
    cpu1.current_instruction_cycle = c.current_instruction_cycle ∧ c.cache <+: cpu1.cache := by
  unfold Cpu.store_x_register_zero_page_cycles at h
  repeat (any_goals (split at h))
  all_goals
    first
      | (rw [RustRes.ok.injEq, Prod.mk.injEq] at h
         obtain ⟨hE, hC⟩ := h
         subst hC
         refine ⟨rfl, ?_⟩
         first
           | exact List.prefix_rfl
           | exact List.prefix_append _ _)
      | simp_all

/-- The NOP handler never changes the cycle counter or the cache. -/
theorem nop_cycles_ctr_cache (c : Cpu) (ended : Bool) (cpu1 : Cpu)
    (h : c.no_operation_cycles = .ok (ended, cpu1)) :
    cpu1.current_instruction_cycle = c.current_instruction_cycle ∧ c.cache <+: cpu1.cache := by
  unfold Cpu.no_operation_cycles at h
  repeat (any_goals (split at h))
  all_goals
    first
      | (rw [RustRes.ok.injEq, Prod.mk.injEq] at h
         obtain ⟨hE, hC⟩ := h
         subst hC
         exact ⟨rfl, List.prefix_rfl⟩)
      | simp_all

/-- The SEC handler never changes the cycle counter or the cache. -/
theorem sec_cycles_ctr_cache (c : Cpu) (ended : Bool) (cpu1 : Cpu)
    (h : c.set_carry_flag_implied_cycles = .ok (ended, cpu1)) :
    cpu1.current_instruction_cycle = c.current_instruction_cycle ∧ c.cache <+: cpu1.cache := by
  unfold Cpu.set_carry_flag_implied_cycles at h
  repeat (any_goals (split at h))
  all_goals
    first
      | (rw [RustRes.ok.injEq, Prod.mk.injEq] at h
         obtain ⟨hE, hC⟩ := h
         subst hC
         exact ⟨rfl, List.prefix_rfl⟩)
      | simp_all

/-- The CLC handler never changes the cycle counter or the cache. -/
theorem clc_cycles_ctr_cache (c : Cpu) (ended : Bool) (cpu1 : Cpu)
    (h : c.clear_carry_flag_implied_cycles = .ok (ended, cpu1)) :
    cpu1.current_instruction_cycle = c.current_instruction_cycle ∧ c.cache <+: cpu1.cache := by
  unfold Cpu.clear_carry_flag_implied_cycles at h
  repeat (any_goals (split at h))
  all_goals
    first
      | (rw [RustRes.ok.injEq, Prod.mk.injEq] at h
         obtain ⟨hE, hC⟩ := h
         subst hC
         exact ⟨rfl, List.prefix_rfl⟩)
      | simp_all

/-- The JSR handler never changes the cycle counter and only appends
to the cache. -/
theorem jsr_cycles_ctr_cache (c : Cpu) (ended : Bool) (cpu1 : Cpu)
    (h : c.jump_to_subroutine_absolute_cycles = .ok (ended, cpu1)) :
    cpu1.current_instruction_cycle = c.current_instruction_cycle ∧ c.cache <+: cpu1.cache := by
  unfold Cpu.jump_to_subroutine_absolute_cycles at h
  repeat (any_goals (split at h))
  all_goals
    first
      | (rw [RustRes.ok.injEq, Prod.mk.injEq] at h
         obtain ⟨hE, hC⟩ := h
         subst hC
         refine ⟨rfl, ?_⟩
         first
           | exact List.prefix_rfl
           | exact List.prefix_append _ _)
      | (rename_i c1' heq
         rw [RustRes.ok.injEq, Prod.mk.injEq] at h
         obtain ⟨hE, hC⟩ := h
         subst hC
         obtain ⟨h1, h2⟩ := stack_push_ctr_cache c _ _ (busToCycle_ok _ _ heq)
         rw [h1, h2]
         exact ⟨rfl, List.prefix_rfl⟩)
      | simp_all

/-- No instruction cycle handler changes the cycle counter, and none
removes cache entries. -/
theorem run_cycle_ctr_cache (s : Cpu) (ended : Bool) (cpu1 : Cpu)
    (h : Cpu.run_instruction_cycle s = .ok (ended, cpu1)) :
    cpu1.current_instruction_cycle = s.current_instruction_cycle ∧ s.cache <+: cpu1.cache := by
  unfold Cpu.run_instruction_cycle at h
  cases hin : s.current_instruction <;> rw [hin] at h
  · exact RustRes.noConfusion h
  · exact jump_absolute_cycles_ctr_cache _ _ _ h
  · exact load_x_cycles_ctr_cache _ _ _ h
  · exact store_x_cycles_ctr_cache _ _ _ h
  · exact jsr_cycles_ctr_cache _ _ _ h
  · exact nop_cycles_ctr_cache _ _ _ h
  · exact sec_cycles_ctr_cache _ _ _ h
  · exact clc_cycles_ctr_cache _ _ _ h
  · exact branch_cycles_ctr_cache _ _ _ _ _ h
  · exact branch_cycles_ctr_cache _ _ _ _ _ h
  · exact branch_cycles_ctr_cache _ _ _ _ _ h
  · exact branch_cycles_ctr_cache _ _ _ _ _ h
  · exact branch_cycles_ctr_cache _ _ _ _ _ h
  · exact branch_cycles_ctr_cache _ _ _ _ _ h
  · exact branch_cycles_ctr_cache _ _ _ _ _ h
  · exact branch_cycles_ctr_cache _ _ _ _ _ h

/-- One successful `Cpu::cycle` call either performs the fetch
(counter 1 to 2, cache untouched) or runs a handler cycle, after which
the counter is reset to 1 with the cache cleared exactly when the
handler reported completion, and otherwise advances by one while the
old cache survives as a prefix. -/
theorem cycle_inv_step (s : Cpu) (o : Option CpuSnapshot) (s' : Cpu)
    (h : s.cycle = .ok (o, s')) :
    (s.current_instruction_cycle = 1 → s'.current_instruction_cycle = 2 ∧ s'.cache = s.cache) ∧
    (¬ s.current_instruction_cycle = 1 →
      (s'.current_instruction_cycle = 1 ∧ s'.cache = []) ∨
      (s'.current_instruction_cycle = s.current_instruction_cycle + 1 ∧ s.cache <+: s'.cache)) := by
  unfold Cpu.cycle at h
  unfold u16_add u8_add at h
  repeat
    first
      | (any_goals (split at h))
      | (any_goals (dsimp only [] at h))
  all_goals try exact RustRes.noConfusion h
  all_goals (rw [RustRes.ok.injEq, Prod.mk.injEq] at h; obtain ⟨hO, hS⟩ := h; subst hS)
  · simp_all
  · exact ⟨fun h1 => absurd h1 ‹¬ s.current_instruction_cycle = 1›, fun _ => Or.inl ⟨rfl, rfl⟩⟩
  · rename_i xa ended1 cpu1 heqRun xb cyc1 heqAdd hEnd
    obtain ⟨hctr, hcache⟩ := run_cycle_ctr_cache _ _ _ (cycleToCpu_ok _ _ heqRun)
    have hctr2 : cpu1.current_instruction_cycle = s.current_instruction_cycle := hctr
    have hcache2 : s.cache <+: cpu1.cache := hcache
    refine ⟨fun h1 => absurd h1 ‹¬ s.current_instruction_cycle = 1›, fun _ => Or.inr ⟨?_, hcache2⟩⟩
    split at heqAdd
    · rw [RustRes.ok.injEq] at heqAdd
      show cyc1 = s.current_instruction_cycle + 1
      rw [← heqAdd, hctr2]
    · exact RustRes.noConfusion heqAdd

/-- The scratch-cache invariant is preserved along any successful
run. -/
theorem cycleN_inv (n : Nat) : ∀ (s0 : Cpu), 1 ≤ s0.current_instruction_cycle →
    (s0.current_instruction_cycle = 1 → s0.cache = []) →
    ∀ s, cycleN s0 n = .ok s →
    1 ≤ s.current_instruction_cycle ∧ (s.current_instruction_cycle = 1 → s.cache = []) := by
  induction n with
  | zero =>
    intro s0 h1 h2 s hs
    simp only [cycleN, RustRes.ok.injEq] at hs
    subst hs
    exact ⟨h1, h2⟩
  | succ n ih =>
    intro s0 h1 h2 s hs
    rw [cycleN] at hs
    split at hs
    · rename_i o s1 heq
      obtain ⟨step1, step2⟩ := cycle_inv_step s0 o s1 heq
      by_cases hc : s0.current_instruction_cycle = 1
      · obtain ⟨e1, e2⟩ := step1 hc
        exact ih s1 (by omega) (by omega) s hs
      · rcases step2 hc with ⟨e1, e2⟩ | ⟨e1, epre⟩
        · exact ih s1 (by omega) (fun _ => e2) s hs
        · exact ih s1 (by omega) (by omega) s hs
    · exact RustRes.noConfusion hs
    · exact RustRes.noConfusion hs

/-- C9: from a freshly constructed CPU, at every successful call
boundary with the cycle counter at 1 (the universal fetch state) the
scratch cache is empty; a fetch step moves the counter to 2 leaving
the cache untouched, and a handler step resets the counter to 1 and
clears the cache exactly when the handler reports the instruction
complete - otherwise the counter advances by one and the cache is only
extended, never cleared. -/
theorem C9_scratch_cache_invariant :
    (∀ (cartridge : Cartridge) (ram : Nat → Nat) (pc n : Nat) (s : Cpu),
      cycleN (Cpu.new_with_program_counter cartridge ram pc) n = .ok s →
      s.current_instruction_cycle = 1 → s.cache = []) ∧
    (∀ (s : Cpu) (o : Option CpuSnapshot) (s' : Cpu), s.cycle = .ok (o, s') →
      s.current_instruction_cycle = 1 → s'.current_instruction_cycle = 2 ∧ s'.cache = s.cache) ∧
    (∀ (s : Cpu) (o : Option CpuSnapshot) (s' : Cpu), s.cycle = .ok (o, s') →
      ¬ s.current_instruction_cycle = 1 →
      (s'.current_instruction_cycle = 1 ∧ s'.cache = []) ∨
      (s'.current_instruction_cycle = s.current_instruction_cycle + 1 ∧ s.cache <+: s'.cache)) := by
  refine ⟨?_, ?_, ?_⟩
  · intro cartridge ram pc n s hs h1
    exact (cycleN_inv n (Cpu.new_with_program_counter cartridge ram pc)
      (by show (1:Nat) ≤ 1; decide) (fun _ => rfl) s hs).2 h1
  · intro s o s' h h1
    exact (cycle_inv_step s o s' h).1 h1
  · intro s o s' h h1
    exact (cycle_inv_step s o s' h).2 h1

/-- Witness: the fetch step of the concrete JSR machine moves the
counter to 2 with an empty cache. -/
theorem C9_witness :
    ∃ o s', c2Cpu.cycle = .ok (o, s') ∧ s'.current_instruction_cycle = 2 ∧ s'.cache = [] := by
  obtain ⟨hfetch, _, _, _⟩ := jsr_exec c2Cpu 0xEE 0x77 rfl rfl (by decide) (by decide) (by decide)
    (by decide) (by decide) (by decide) (by decide) (by decide)
  obtain ⟨ha, hb⟩ := C9_scratch_cache_invariant.2.1 c2Cpu _ _ hfetch rfl
  exact ⟨_, _, hfetch, ha, hb⟩
